import Mathlib

/-!
# Continuum browser extension: content-script extractors and popup orchestrator

A shallow embedding of `frontend/content-scripts/{chatgpt,gemini,claude}.js` and
`frontend/popup.js`.

Conventions of the embedding

* JavaScript strings are `String`; the string methods used by the sources
  (`trim`, `includes`, `substr`) are defined on the character list.
* The DOM is a finite tree of text and element nodes.  `textContent` is computed
  from the tree; `innerText` depends on layout and is carried by every element as
  given data (`none` stands for `undefined`, as on non-HTML elements).
* `localStorage`, the clock, the random source, the location and the network are
  explicit arguments; functions that write to storage return the new storage.
-/

namespace Continuum

/-! ## JavaScript strings -/

/-- Code points removed by `String.prototype.trim` (WhiteSpace and LineTerminator). -/
def isTrimSpace (c : Char) : Bool :=
  let n := c.toNat
  n == 0x09 || n == 0x0A || n == 0x0B || n == 0x0C || n == 0x0D || n == 0x20 ||
  n == 0xA0 || n == 0x1680 || (0x2000 ≤ n && n ≤ 0x200A) || n == 0x2028 ||
  n == 0x2029 || n == 0x202F || n == 0x205F || n == 0x3000 || n == 0xFEFF

/-- The method `s.trim()`. -/
def trim (s : String) : String :=
  ⟨(s.data.dropWhile isTrimSpace).rdropWhile isTrimSpace⟩

/-- Search for the character list `t` at some position of a character list. -/
def includesChars (t : List Char) : List Char → Bool
  | [] => t.isEmpty
  | c :: cs => t.isPrefixOf (c :: cs) || includesChars t cs

/-- The method `s.includes(t)`. -/
def includes (s t : String) : Bool :=
  includesChars t.data s.data

/-- The method `s.substr(start, length)` for non-negative arguments. -/
def substr (s : String) (start length : Nat) : String :=
  ⟨(s.data.drop start).take length⟩

/-- The expression `a || b` where `a` is a string or `undefined`/`null` and `b` a string. -/
def orString (a : Option String) (b : String) : String :=
  match a with
  | some s => if s = "" then b else s
  | none => b

/-! ## DOM -/

/-- A DOM node: a text node or an element with its tag name, attributes, its
(layout dependent) `innerText` and its children in document order. -/
inductive Node where
  | text (data : String)
  | element (tag : String) (attrs : List (String × String)) (innerText : Option String)
      (children : List Node)

/-- A document: the children of the document node, in document order. -/
structure Document where
  children : List Node

mutual
/-- The property `node.textContent`. -/
def Node.textContent : Node → String
  | .text d => d
  | .element _ _ _ cs => textContentList cs
/-- Concatenated `textContent` of a list of sibling nodes. -/
def textContentList : List Node → String
  | [] => ""
  | c :: cs => c.textContent ++ textContentList cs
end

/-- The property `element.innerText`. -/
def Node.innerText : Node → Option String
  | .text _ => none
  | .element _ _ i _ => i

/-- The method `element.getAttribute(name)`; `none` stands for `null`. -/
def Node.getAttribute : Node → String → Option String
  | .text _, _ => none
  | .element _ attrs _ _, name => (attrs.find? (fun p => p.1 == name)).map (fun p => p.2)

mutual
/-- The nodes below a node, in document order. -/
def Node.descendants : Node → List Node
  | .text _ => []
  | .element _ _ _ cs => subtreeList cs
/-- The nodes of a forest, in document order. -/
def subtreeList : List Node → List Node
  | [] => []
  | c :: cs => c :: (c.descendants ++ subtreeList cs)
end

/-- ASCII whitespace separating the tokens of a `class` attribute. -/
def isAsciiSpace (c : Char) : Bool :=
  c == ' ' || c == '\t' || c == '\n' || c == '\x0c' || c == '\r'

/-- Split a character list into its whitespace separated tokens; `cur` is the
token being read, reversed. -/
def tokensAux : List Char → List Char → List String
  | cur, [] => if cur.isEmpty then [] else [⟨cur.reverse⟩]
  | cur, c :: cs =>
    if isAsciiSpace c then
      (if cur.isEmpty then tokensAux [] cs else ⟨cur.reverse⟩ :: tokensAux [] cs)
    else tokensAux (c :: cur) cs

/-- The class names of an element (`element.classList`). -/
def Node.classList (n : Node) : List String :=
  match n.getAttribute "class" with
  | some v => tokensAux [] v.data
  | none => []

/-- The simple selectors occurring in the content scripts. -/
inductive Selector where
  /-- Type selector, `main`. -/
  | tag (name : String)
  /-- Class selector, `.markdown`. -/
  | cls (name : String)
  /-- Attribute presence, `[data-message-author-role]`. -/
  | hasAttr (name : String)
  /-- Attribute equality, `[data-testid="user-message"]`. -/
  | attrEq (name value : String)
  /-- Attribute substring, `[class*="markdown"]`. -/
  | attrContains (name value : String)

/-- Does the node match the simple selector? Text nodes match nothing. -/
def Selector.test (sel : Selector) (n : Node) : Bool :=
  match n with
  | .text _ => false
  | .element t _ _ _ =>
    match sel with
    | .tag name => t == name
    | .cls name => n.classList.contains name
    | .hasAttr name => (n.getAttribute name).isSome
    | .attrEq name value => n.getAttribute name == some value
    | .attrContains name value =>
      match n.getAttribute name with
      | some v => value != "" && includes v value
      | none => false

/-- Does the node match a comma separated selector list? -/
def matchesAny (sels : List Selector) (n : Node) : Bool :=
  sels.any (fun sel => sel.test n)

/-- The method `document.querySelectorAll(sels)`. -/
def Document.querySelectorAll (d : Document) (sels : List Selector) : List Node :=
  (subtreeList d.children).filter (matchesAny sels)

/-- The method `document.querySelector(sels)`; `none` stands for `null`. -/
def Document.querySelector (d : Document) (sels : List Selector) : Option Node :=
  (subtreeList d.children).find? (matchesAny sels)

/-- The method `element.querySelectorAll(sels)`. -/
def Node.querySelectorAll (n : Node) (sels : List Selector) : List Node :=
  n.descendants.filter (matchesAny sels)

/-- The method `element.querySelector(sels)`; `none` stands for `null`. -/
def Node.querySelector (n : Node) (sels : List Selector) : Option Node :=
  n.descendants.find? (matchesAny sels)

/-! ## Data exchanged between the content scripts and the popup -/

/-- One extracted turn, `{ role, content }`. -/
structure Message where
  role : String
  content : String
  deriving DecidableEq

/-- The object a content script answers with.  A field that the object does not
have is `none`. -/
structure Response where
  provider : Option String := none
  sessionId : Option String := none
  messages : Option (List Message) := none
  timestamp : Option String := none
  url : Option String := none
  error : Option String := none
  deriving DecidableEq

/-- The part of `window.location` read by the content scripts. -/
structure Location where
  href : String
  pathname : String

/-- The content of `localStorage`: keys with their values, in insertion order. -/
abbrev Storage := List (String × String)

/-- The method `localStorage.getItem(key)`; `none` stands for `null`. -/
def Storage.getItem (st : Storage) (key : String) : Option String :=
  (st.find? (fun p => p.1 == key)).map (fun p => p.2)

/-- The method `localStorage.setItem(key, value)`. -/
def Storage.setItem (st : Storage) (key value : String) : Storage :=
  if st.any (fun p => p.1 == key) then
    st.map (fun p => if p.1 == key then (key, value) else p)
  else st ++ [(key, value)]

/-! ## `content-scripts/chatgpt.js` -/

namespace ChatGPT

/-- The selector list `.markdown, .whitespace-pre-wrap, [class*="markdown"]`. -/
def contentSelector : List Selector :=
  [.cls "markdown", .cls "whitespace-pre-wrap", .attrContains "class" "markdown"]

/-- The content resolved for a turn element (lines 15-20). -/
def resolveContent (element : Node) : String :=
  match element.querySelector contentSelector with
  | some contentElement =>
    orString contentElement.innerText (orString (some contentElement.textContent) "")
  | none => ""

/-- The body of the `forEach` callback (lines 11-28): `messages` after visiting `element`. -/
def visit (messages : List Message) (element : Node) : List Message :=
  let role := element.getAttribute "data-message-author-role"
  let content := resolveContent element
  if trim content ≠ "" then
    messages ++ [{ role := if role = some "user" then "user" else "assistant",
                   content := trim content }]
  else messages

/-- Group 1 of the regular expression `/\/c\/([^/]+)/` matched at the start of `s`. -/
def matchHere (s : List Char) : Option (List Char) :=
  if ['/', 'c', '/'].isPrefixOf s then
    let run := (s.drop 3).takeWhile (fun c => c != '/')
    if run.isEmpty then none else some run
  else none

/-- Group 1 of the leftmost match of `/\/c\/([^/]+)/` in `s`, as computed by
`pathname.match(...)`; `none` when there is no match. -/
def matchConversationId : List Char → Option (List Char)
  | [] => none
  | c :: cs =>
    match matchHere (c :: cs) with
    | some run => some run
    | none => matchConversationId cs

/-- The function `generateSessionId` (lines 43-51).  `now` is `Date.now()` and
`random` is the string `Math.random().toString(36)`. -/
def generateSessionId (storage : Storage) (now : Nat) (random : String) : String × Storage :=
  match storage.getItem "agenticMemorySession" with
  | some sessionId =>
    if sessionId = "" then
      let fresh := "chatgpt-" ++ toString now ++ "-" ++ substr random 2 9
      (fresh, storage.setItem "agenticMemorySession" fresh)
    else (sessionId, storage)
  | none =>
    let fresh := "chatgpt-" ++ toString now ++ "-" ++ substr random 2 9
    (fresh, storage.setItem "agenticMemorySession" fresh)

/-- The function `extractConversation` (lines 4-41).  `timestamp` is
`new Date().toISOString()`. -/
def extractConversation (document : Document) (location : Location) (storage : Storage)
    (now : Nat) (random timestamp : String) : Response × Storage :=
  let messageElements := document.querySelectorAll [.hasAttr "data-message-author-role"]
  let messages := messageElements.foldl visit []
  let (sessionId, storage1) :=
    match matchConversationId location.pathname.data with
    | some run => (String.mk run, storage)
    | none => generateSessionId storage now random
  ({ provider := some "chatgpt", sessionId := some sessionId, messages := some messages,
     timestamp := some timestamp, url := some location.href }, storage1)

end ChatGPT

/-! ## `content-scripts/gemini.js` -/

namespace Gemini

/-- The selector list `[class*="message"], [class*="query"], [class*="response"]`. -/
def turnSelector : List Selector :=
  [.attrContains "class" "message", .attrContains "class" "query",
   .attrContains "class" "response"]

/-- The value `isUser` (lines 11-12), as a truth value. -/
def isUser (element : Node) : Bool :=
  match element.getAttribute "class" with
  | some c => includes c "query" || includes c "user"
  | none => false

/-- The content resolved for a turn element (line 14). -/
def resolveContent (element : Node) : String :=
  orString element.innerText (orString (some element.textContent) "")

/-- The body of the `forEach` callback (lines 10-22). -/
def visit (messages : List Message) (element : Node) : List Message :=
  let content := resolveContent element
  if trim content ≠ "" then
    messages ++ [{ role := if isUser element then "user" else "assistant",
                   content := trim content }]
  else messages

/-- The function `generateSessionId` (lines 35-42). -/
def generateSessionId (storage : Storage) (now : Nat) (random : String) : String × Storage :=
  match storage.getItem "agenticMemorySession" with
  | some sessionId =>
    if sessionId = "" then
      let fresh := "gemini-" ++ toString now ++ "-" ++ substr random 2 9
      (fresh, storage.setItem "agenticMemorySession" fresh)
    else (sessionId, storage)
  | none =>
    let fresh := "gemini-" ++ toString now ++ "-" ++ substr random 2 9
    (fresh, storage.setItem "agenticMemorySession" fresh)

/-- The function `extractConversation` (lines 4-33). -/
def extractConversation (document : Document) (location : Location) (storage : Storage)
    (now : Nat) (random timestamp : String) : Response × Storage :=
  let messageElements := document.querySelectorAll turnSelector
  let messages := messageElements.foldl visit []
  let (sessionId, storage1) := generateSessionId storage now random
  ({ provider := some "gemini", sessionId := some sessionId, messages := some messages,
     timestamp := some timestamp, url := some location.href }, storage1)

end Gemini

/-! ## `content-scripts/claude.js` -/

namespace Claude

/-- The content resolved for a message group (lines 18-19):
`group.querySelector('.font-claude-message')?.textContent?.trim() || group.textContent?.trim()`. -/
def resolveContent (group : Node) : String :=
  orString ((group.querySelector [.cls "font-claude-message"]).map (fun e => trim e.textContent))
    (trim group.textContent)

/-- The value `isUser` (line 17). -/
def isUser (group : Node) : Bool :=
  (group.querySelector [.attrEq "data-testid" "user-message"]).isSome

/-- The body of the `forEach` callback (lines 15-27). -/
def visit (messages : List Message) (group : Node) : List Message :=
  let content := resolveContent group
  if content ≠ "" then
    messages ++ [{ role := if isUser group then "user" else "assistant", content := content }]
  else messages

/-- The constant `conversationDiv` (lines 5-6); `none` stands for `null`. -/
def conversationDiv (document : Document) : Option Node :=
  match document.querySelector [.attrEq "data-testid" "conversation-content"] with
  | some e => some e
  | none => document.querySelector [.tag "main"]

/-- The function `extractConversation` (lines 1-41).  The file calls a function
`generateSessionId` that it does not define; it is the first argument here, and
`Except.error` is a call that throws.  The result `Except.error` is an exception
leaving `extractConversation`. -/
def extractConversation (generateSessionId : Storage → Except String (String × Storage))
    (document : Document) (location : Location) (storage : Storage) (timestamp : String) :
    Except String (Response × Storage) :=
  match conversationDiv document with
  | none =>
    .ok ({ provider := some "claude", messages := some [],
           error := some "No conversation found" }, storage)
  | some div =>
    let messageGroups := div.querySelectorAll [.attrContains "data-testid" "message"]
    let messages := messageGroups.foldl visit []
    match generateSessionId storage with
    | .error e => .error e
    | .ok (sessionId, storage1) =>
      .ok ({ provider := some "claude", sessionId := some sessionId, messages := some messages,
             timestamp := some timestamp, url := some location.href }, storage1)

end Claude

/-! ## `popup.js` -/

namespace Popup

/-- The constant `API_BASE`. -/
def API_BASE : String := "http://localhost:8000"

/-- One element of `stored_memories`; `type` is `none` when the field is absent. -/
structure Memory where
  type : Option String
  deriving DecidableEq

/-- The field `rendered_context` of a backend answer. -/
structure RenderedContext where
  system_prompt : Option String := none
  user_prompt : Option String := none
  deriving DecidableEq

/-- The JSON object answered by the backend, as far as `popup.js` reads it. -/
structure ProcessedContext where
  rendered_context : Option RenderedContext := none
  stored_memories : Option (List Memory) := none
  deriving DecidableEq

/-- The four variables `state`, `conversation`, `processedContext`, `error`
(lines 6-9); the default value is their initial value. -/
structure State where
  state : String := "idle"
  conversation : Option Response := none
  processedContext : Option ProcessedContext := none
  error : Option String := none
  deriving DecidableEq

/-- The object `conversation_input` of the request body. -/
structure ConversationInput where
  session_id : Option String
  user_message : String
  conversation_history : List Message
  deriving DecidableEq

/-- The request body built by `processContext` (lines 60-69). -/
structure Payload where
  conversation_input : ConversationInput
  target_provider : Option String
  retrieve_context : Bool
  apply_policies : Bool
  deriving DecidableEq

/-- An entry of `chrome.tabs.query`. -/
structure Tab where
  id : Option Nat
  url : Option String
  deriving DecidableEq

/-- What the popup asks of its environment. -/
inductive Effect where
  /-- The call `chrome.tabs.query({ active: true, currentWindow: true })`. -/
  | tabsQuery
  /-- The call `chrome.tabs.sendMessage(tab.id, { action: 'getConversation' }, callback)`. -/
  | sendMessage (tabId : Option Nat)
  /-- The call `fetch(API_BASE + '/api/process', ...)` with the payload as body. -/
  | fetch (payload : Payload)
  /-- The call `navigator.clipboard.writeText(text)`. -/
  | clipboardWrite (text : String)
  /-- The call `navigator.clipboard.writeText(JSON.stringify(processedContext, null, 2))`. -/
  | clipboardWriteJson (data : ProcessedContext)
  /-- The call `alert(text)`. -/
  | alert (text : String)
  /-- The call `chrome.tabs.create({ url })`; `none` when `url` is not one of the three links. -/
  | tabsCreate (url : Option String)
  deriving DecidableEq

/-- A value held by a property of the object `memoryTypes`: the expression
`(memoryTypes[type] || 0) + 1` is a number, or a string when the left operand
is not a number. -/
inductive Count where
  | num (n : Nat)
  | str (s : String)
  deriving DecidableEq

/-- The properties that an object literal inherits from `Object.prototype`, each
with the text it converts to as the left operand of `+ 1` (V8). -/
def objectPrototype : List (String × String) :=
  [("constructor", "function Object() \x7b [native code] \x7d"),
   ("__defineGetter__", "function __defineGetter__() \x7b [native code] \x7d"),
   ("__defineSetter__", "function __defineSetter__() \x7b [native code] \x7d"),
   ("hasOwnProperty", "function hasOwnProperty() \x7b [native code] \x7d"),
   ("__lookupGetter__", "function __lookupGetter__() \x7b [native code] \x7d"),
   ("__lookupSetter__", "function __lookupSetter__() \x7b [native code] \x7d"),
   ("isPrototypeOf", "function isPrototypeOf() \x7b [native code] \x7d"),
   ("propertyIsEnumerable", "function propertyIsEnumerable() \x7b [native code] \x7d"),
   ("toString", "function toString() \x7b [native code] \x7d"),
   ("valueOf", "function valueOf() \x7b [native code] \x7d"),
   ("__proto__", "[object Object]"),
   ("toLocaleString", "function toLocaleString() \x7b [native code] \x7d")]

/-- The own properties of `memoryTypes`, in creation order. -/
abbrev MemoryTypes := List (String × Count)

/-- The lookup of an own property. -/
def MemoryTypes.own (m : MemoryTypes) (key : String) : Option Count :=
  (m.find? (fun p => p.1 == key)).map (fun p => p.2)

/-- The value of `(memoryTypes[type] || 0) + 1`: an own property is read first,
then the prototype. -/
def MemoryTypes.next (m : MemoryTypes) (type : String) : Count :=
  match m.own type with
  | some (.num n) => .num (n + 1)
  | some (.str s) => if s = "" then .num 1 else .str (s ++ "1")
  | none =>
    match objectPrototype.find? (fun p => p.1 == type) with
    | some p => .str (p.2 ++ "1")
    | none => .num 1

/-- The assignment `memoryTypes[type] = value`.  The key `__proto__` is an
accessor of the prototype whose setter ignores a number or a string. -/
def MemoryTypes.assign (m : MemoryTypes) (type : String) (value : Count) : MemoryTypes :=
  if type = "__proto__" then m
  else if m.any (fun p => p.1 == type) then
    m.map (fun p => if p.1 == type then (type, value) else p)
  else m ++ [(type, value)]

/-- The body of the `forEach` callback of lines 271-274. -/
def countMemory (memoryTypes : MemoryTypes) (m : Memory) : MemoryTypes :=
  let type := orString m.type "unknown"
  memoryTypes.assign type (memoryTypes.next type)

/-- The value of a decimal numeral without sign. -/
def digitsValue (cs : List Char) : Nat :=
  cs.foldl (fun n c => 10 * n + (c.toNat - 48)) 0

/-- Is the key an array index, that is the canonical numeral of an integer below `2^32 - 1`?
Such keys are listed first by `Object.entries`, in ascending order. -/
def arrayIndex (key : String) : Option Nat :=
  let cs := key.data
  if cs ≠ [] ∧ cs.all (fun c => c.isDigit) ∧ (cs.head? ≠ some '0' ∨ cs.length = 1)
      ∧ digitsValue cs < 4294967295 then
    some (digitsValue cs)
  else none

/-- Order of two entries whose keys are array indices. -/
def indexLe (a b : String × Count) : Prop :=
  (arrayIndex a.1).getD 0 ≤ (arrayIndex b.1).getD 0

instance : DecidableRel indexLe := fun a b =>
  inferInstanceAs (Decidable ((arrayIndex a.1).getD 0 ≤ (arrayIndex b.1).getD 0))

/-- The function `Object.entries` on `memoryTypes`: array indices ascending, then
the other keys in creation order. -/
def MemoryTypes.entries (m : MemoryTypes) : List (String × Count) :=
  (m.filter (fun p => (arrayIndex p.1).isSome)).insertionSort indexLe ++
    m.filter (fun p => !(arrayIndex p.1).isSome)

/-- The entries of the memory breakdown (lines 270-274 and 280): each pair is
shown as a type with its count. -/
def memoryBreakdown (storedMemories : List Memory) : List (String × Count) :=
  MemoryTypes.entries (storedMemories.foldl countMemory [])

/-- What `render` puts on screen, as far as the claims need it. -/
structure View where
  /-- The text of the error banner (lines 161-168). -/
  error : Option String
  /-- The text below the hourglass (line 189). -/
  loading : Option String
  /-- The entries of the memory breakdown (lines 269-289). -/
  memoryBreakdown : Option (List (String × Count))
  /-- The ids of the buttons of the new content; a click listener is attached to
  each of them (lines 326-367). -/
  buttons : List String
  deriving DecidableEq

/-- The function `render` (lines 142-368).  The result `Except.error` is a `TypeError`
thrown while the new content is built: by `conversation.messages.length` (line 209) or
`conversation.sessionId.slice` (line 213) when the field is absent, and by
`conversation.provider` (line 242) when `conversation` is `null`.  The page then keeps
its previous content. -/
def render (s : State) : Except String View :=
  let error := match s.error with
    | some e => if e = "" then none else some e
    | none => none
  let idleButtons := if s.state = "idle" then ["extractBtn"] else []
  let loading :=
    if s.state = "loading" then
      some (if s.conversation.isSome then "Processing context..." else "Extracting conversation...")
    else none
  let extracted : Except String (List String) :=
    if s.state = "extracted" then
      match s.conversation with
      | some c =>
        match c.messages, c.sessionId with
        | none, _ => .error "Cannot read properties of undefined (reading \x27length\x27)"
        | some _, none => .error "Cannot read properties of undefined (reading \x27slice\x27)"
        | some _, some _ => .ok ["processBtn"]
      | none => .ok []
    else .ok []
  match extracted with
  | .error message => .error message
  | .ok extractedButtons =>
    if s.state = "processed" then
      match s.processedContext with
      | some processedContext =>
        match s.conversation with
        | none => .error "Cannot read properties of null (reading \x27provider\x27)"
        | some _ =>
          let storedMemories := processedContext.stored_memories.getD []
          .ok { error := error, loading := loading,
                memoryBreakdown :=
                  if storedMemories.length > 0 then some (memoryBreakdown storedMemories)
                  else none,
                buttons := idleButtons ++ extractedButtons ++
                  ["copySystemBtn", "copyFullBtn", "copyJsonBtn", "chatBtn"] }
      | none =>
        .ok { error := error, loading := loading, memoryBreakdown := none,
              buttons := idleButtons ++ extractedButtons }
    else
      .ok { error := error, loading := loading, memoryBreakdown := none,
            buttons := idleButtons ++ extractedButtons }

/-- The text of `Failed to process: ${err.message}. Is backend running on ${API_BASE}?`
(line 93). -/
def failedToProcess (message : String) : String :=
  "Failed to process: " ++ message ++ ". Is backend running on " ++ API_BASE ++ "?"

/-- The async function `extractConversation` up to its first `await` (lines 12-17). -/
def extractConversation (s : State) : State × List Effect :=
  ({ s with state := "loading", error := none }, [.tabsQuery])

/-- The provider inferred from the url of the tab (lines 20-27). -/
def providerOf (url : String) : String :=
  if includes url "chatgpt.com" || includes url "chat.openai.com" then "chatgpt"
  else if includes url "claude.ai" then "claude"
  else if includes url "gemini.google.com" then "gemini"
  else "unknown"

/-- The function `extractConversation` from the moment `chrome.tabs.query` settles to the
call of `chrome.tabs.sendMessage` (lines 17-29), with the `catch` of lines 47-51.
`Except.error` is a rejection, with the text of `err.message`. -/
def extractConversation_tabs (s : State) (tabs : Except String (List Tab)) :
    State × List Effect :=
  match tabs with
  | .error message => ({ s with error := some ("Error: " ++ message), state := "idle" }, [])
  | .ok [] =>
    ({ s with error := some "Error: Cannot read properties of undefined (reading \x27url\x27)",
              state := "idle" }, [])
  | .ok (tab :: _) =>
    match tab.url with
    | none =>
      ({ s with
          error := some "Error: Cannot read properties of undefined (reading \x27includes\x27)",
          state := "idle" }, [])
    | some _ => (s, [.sendMessage tab.id])

/-- The condition `response && response.messages && response.messages.length > 0` (line 37). -/
def hasMessages (response : Option Response) : Bool :=
  match response with
  | some r =>
    match r.messages with
    | some messages => decide (messages.length > 0)
    | none => false
  | none => false

/-- The callback given to `chrome.tabs.sendMessage` (lines 29-46).  `lastError` is
`chrome.runtime.lastError`, as the text of its `message`, or `none` when it is not set. -/
def extractConversation_callback (s : State) (lastError : Option String)
    (response : Option Response) : State :=
  match lastError with
  | some message => { s with error := some ("Failed to extract: " ++ message), state := "idle" }
  | none =>
    if hasMessages response then
      { s with conversation := response, state := "extracted" }
    else
      { s with error := some "No conversation found. Please ensure you have an active chat open.",
               state := "idle" }

/-- The object `payload` (lines 60-69).  `Except.error` is the `TypeError` of reading a
property of `null` or `undefined`.  On an empty list the index `length - 1` is `-1` in
the source and `0` here; both read `undefined`. -/
def buildPayload (conversation : Option Response) : Except String Payload :=
  match conversation with
  | none => .error "Cannot read properties of null (reading \x27sessionId\x27)"
  | some c =>
    match c.messages with
    | none => .error "Cannot read properties of undefined (reading \x27length\x27)"
    | some messages =>
      match messages[messages.length - 1]? with
      | none => .error "Cannot read properties of undefined (reading \x27content\x27)"
      | some last =>
        .ok { conversation_input :=
                { session_id := c.sessionId, user_message := last.content,
                  conversation_history := messages },
              target_provider := c.provider, retrieve_context := true, apply_policies := true }

/-- The async function `processContext` up to `await fetch(...)` (lines 55-77), with the
`catch` of lines 91-96 for an exception thrown before the request is sent. -/
def processContext (s : State) : State × List Effect :=
  let s1 : State := { s with state := "loading", error := none }
  match buildPayload s1.conversation with
  | .ok payload => (s1, [.fetch payload])
  | .error message =>
    ({ s1 with error := some (failedToProcess message), state := "extracted" }, [])

/-- The answer of `fetch`: the status code and what `response.text()` and
`response.json()` resolve to (`Except.error` is a rejection, `none` is JSON `null`). -/
structure FetchResponse where
  status : Nat
  text : Except String String
  json : Except String (Option ProcessedContext)

/-- The property `response.ok`: the status is in the range 200-299. -/
def FetchResponse.ok (r : FetchResponse) : Bool :=
  decide (200 ≤ r.status) && decide (r.status ≤ 299)

/-- The function `processContext` from the moment `fetch` settles (lines 73-96).
`Except.error` is a rejected `fetch`, with the text of `err.message`. -/
def processContext_settled (s : State) (outcome : Except String FetchResponse) : State :=
  match outcome with
  | .error message => { s with error := some (failedToProcess message), state := "extracted" }
  | .ok response =>
    if !response.ok then
      match response.text with
      | .error message =>
        { s with error := some (failedToProcess message), state := "extracted" }
      | .ok _ =>
        { s with error := some (failedToProcess ("Backend returned " ++ toString response.status)),
                 state := "extracted" }
    else
      match response.json with
      | .error message =>
        { s with error := some (failedToProcess message), state := "extracted" }
      | .ok data =>
        let s1 : State := { s with processedContext := data, state := "processed" }
        match render s1 with
        | .ok _ => s1
        | .error message =>
          { s1 with error := some (failedToProcess message), state := "extracted" }

/-- The function `copyToClipboard` up to the call of `writeText` (lines 99-107). -/
def copyToClipboard (text : String) : List Effect :=
  if text = "" ∨ trim text = "" then [.alert "No content to copy"] else [.clipboardWrite text]

/-- The `catch` of `copyToClipboard` (lines 119-123). -/
def copyToClipboard_rejected (s : State) : State :=
  { s with error := some "Failed to copy to clipboard" }

/-- The function `openInNewChat` (lines 126-134).  A provider that names a property
of `Object.prototype` reads that property instead of a link. -/
def openInNewChat (s : State) : List Effect :=
  match s.conversation with
  | none => []
  | some c =>
    let key := c.provider.getD "undefined"
    if key = "chatgpt" then [.tabsCreate (some "https://chat.openai.com/")]
    else if key = "claude" then [.tabsCreate (some "https://claude.ai/new")]
    else if key = "gemini" then [.tabsCreate (some "https://gemini.google.com/")]
    else if objectPrototype.any (fun p => p.1 == key) then [.tabsCreate none]
    else [.tabsCreate (some "https://chat.openai.com/")]

/-- The listener of `copySystemBtn` (lines 336-344). -/
def copySystem (s : State) : List Effect :=
  match s.processedContext with
  | none => []
  | some processedContext =>
    let systemPrompt :=
      orString ((processedContext.rendered_context.getD {}).system_prompt) ""
    if systemPrompt ≠ "" then copyToClipboard systemPrompt
    else [.alert "No system prompt available"]

/-- The listener of `copyFullBtn` (lines 349-355). -/
def copyFull (s : State) : List Effect :=
  match s.processedContext with
  | none => []
  | some processedContext =>
    let renderedContext := processedContext.rendered_context.getD {}
    let systemPrompt := orString renderedContext.system_prompt ""
    let userPrompt := orString renderedContext.user_prompt ""
    copyToClipboard ("=== SYSTEM PROMPT ===\n" ++ systemPrompt ++
      "\n\n=== USER CONTEXT ===\n" ++ userPrompt)

/-- The listener of `copyJsonBtn` (lines 360-363). -/
def copyJson (s : State) : List Effect :=
  match s.processedContext with
  | none => [.clipboardWrite "null"]
  | some processedContext => [.clipboardWriteJson processedContext]

/-- A click on the button with the given id while the page shows the rendering of `s`.
Listeners exist only on the buttons that `render` has put on the page (lines 326-367);
a click on a button that is not on the page reaches no listener.  The result is `none`
when `render` throws in `s`, so that the page is not the rendering of `s`. -/
def click (id : String) (s : State) : Option (State × List Effect) :=
  match render s with
  | .error _ => none
  | .ok view =>
    if id ∈ view.buttons then
      if id = "extractBtn" then some (extractConversation s)
      else if id = "processBtn" then some (processContext s)
      else if id = "copySystemBtn" then some (s, copySystem s)
      else if id = "copyFullBtn" then some (s, copyFull s)
      else if id = "copyJsonBtn" then some (s, copyJson s)
      else if id = "chatBtn" then some (s, openInNewChat s)
      else some (s, [])
    else some (s, [])

/-- The listener reached by a click on the button with the given id in state `s`, by the
conditions under which `render` mounts the button: the extract button in state `idle`
(line 171), the process button in state `extracted` with a conversation (line 195), the
copy and chat buttons in state `processed` with a processed context (line 224).  This is
`click` wherever `render` returns; where `render` throws the page keeps an older content
and `dispatch` still follows these three conditions. -/
def dispatch (id : String) (s : State) : State × List Effect :=
  if id = "extractBtn" then
    if s.state = "idle" then extractConversation s else (s, [])
  else if id = "processBtn" then
    if s.state = "extracted" ∧ s.conversation.isSome then processContext s else (s, [])
  else if s.state = "processed" ∧ s.processedContext.isSome then
    if id = "copySystemBtn" then (s, copySystem s)
    else if id = "copyFullBtn" then (s, copyFull s)
    else if id = "copyJsonBtn" then (s, copyJson s)
    else if id = "chatBtn" then (s, openInNewChat s)
    else (s, [])
  else (s, [])

/-- The popup together with the operations it has started and that are not yet
completed. -/
structure System where
  vars : State
  inflight : List Effect

/-- The popup when it opens: the initial values of lines 6-9, nothing started. -/
def System.init : System :=
  { vars := {}, inflight := [] }

/-- What happens to the popup: a click of the user, or the completion of an operation. -/
inductive Event where
  /-- A click on the button with this id. -/
  | click (id : String)
  /-- The promise of `chrome.tabs.query` settles. -/
  | tabsSettled (tabs : Except String (List Tab))
  /-- The callback of `chrome.tabs.sendMessage` is called. -/
  | answered (tabId : Option Nat) (lastError : Option String) (response : Option Response)
  /-- The promise of `fetch` settles. -/
  | fetchSettled (payload : Payload) (outcome : Except String FetchResponse)
  /-- The promise of `navigator.clipboard.writeText` is rejected. -/
  | clipboardRejected (effect : Effect)

/-- One step of the popup.  A click is dispatched by `dispatch`; a completion is possible
only for an operation that is in flight, and takes it out of the list.  The result is
`none` when the event cannot happen. -/
def step (sys : System) : Event → Option System
  | .click id =>
    some { vars := (dispatch id sys.vars).1,
           inflight := sys.inflight ++ (dispatch id sys.vars).2 }
  | .tabsSettled tabs =>
    if Effect.tabsQuery ∈ sys.inflight then
      some { vars := (extractConversation_tabs sys.vars tabs).1,
             inflight := sys.inflight.erase Effect.tabsQuery ++
               (extractConversation_tabs sys.vars tabs).2 }
    else none
  | .answered tabId lastError response =>
    if Effect.sendMessage tabId ∈ sys.inflight then
      some { vars := extractConversation_callback sys.vars lastError response,
             inflight := sys.inflight.erase (Effect.sendMessage tabId) }
    else none
  | .fetchSettled payload outcome =>
    if Effect.fetch payload ∈ sys.inflight then
      some { vars := processContext_settled sys.vars outcome,
             inflight := sys.inflight.erase (Effect.fetch payload) }
    else none
  | .clipboardRejected effect =>
    match effect with
    | .clipboardWrite _ | .clipboardWriteJson _ =>
      if effect ∈ sys.inflight then
        some { vars := copyToClipboard_rejected sys.vars,
               inflight := sys.inflight.erase effect }
      else none
    | _ => none

/-- The popup after a sequence of events; `none` when one of them cannot happen. -/
def run (sys : System) : List Event → Option System
  | [] => some sys
  | e :: es =>
    match step sys e with
    | some next => run next es
    | none => none

/-- The invariant of the popup: `conversation` is `null` or has a message; in the states
`extracted` and `processed` it is not `null`; it is not `null` while a backend call is
in flight. -/
def Invariant (sys : System) : Prop :=
  (sys.vars.conversation = none ∨ hasMessages sys.vars.conversation = true) ∧
  ((sys.vars.state = "extracted" ∨ sys.vars.state = "processed") →
    sys.vars.conversation ≠ none) ∧
  (∀ payload, Effect.fetch payload ∈ sys.inflight → sys.vars.conversation ≠ none)

end Popup

/-! ## Sample inputs -/

namespace Fixture

/-- A page with two turns, carrying the markers that the three content scripts look for. -/
def page : Document :=
  ⟨[.element "main" [] none
      [.element "div"
          [("data-message-author-role", "user"), ("class", "user-query"),
           ("data-testid", "message-1")]
          (some "Hello")
          [.element "p" [("class", "whitespace-pre-wrap"), ("data-testid", "user-message")]
            (some "Hello") [.text "Hello"]],
       .element "div"
          [("data-message-author-role", "assistant"), ("class", "model-response"),
           ("data-testid", "message-2")]
          (some " Hi there ")
          [.element "p" [("class", "markdown font-claude-message")]
            (some " Hi there ") [.text " Hi there "]]]]⟩

/-- A page without conversation container. -/
def emptyPage : Document :=
  ⟨[.element "html" [] none
      [.element "body" [] none
        [.element "div" [("data-testid", "message-1")] (some "Sign in") [.text "Sign in"]]]]⟩

/-- A turn without content element: its text is a child of the turn itself. -/
def plainTurn : Node :=
  .element "div" [("data-message-author-role", "user"), ("data-testid", "message-1")]
    (some "Hello") [.text "Hello"]

/-- A turn whose content element is blank, with its text beside it. -/
def blankContentTurn : Node :=
  .element "div" [("data-message-author-role", "assistant"), ("data-testid", "message-2")]
    (some "Hi there")
    [.element "p" [("class", "markdown font-claude-message")] (some "") [.text "  "],
     .element "span" [] (some "Hi there") [.text "Hi there"]]

/-- A page with these two turns. -/
def plainPage : Document :=
  ⟨[.element "main" [] none [plainTurn, blankContentTurn]]⟩

/-- The location of a ChatGPT conversation. -/
def chatLocation : Location :=
  { href := "https://chatgpt.com/c/abc123/share", pathname := "/c/abc123/share" }

/-- A location without conversation id. -/
def homeLocation : Location :=
  { href := "https://claude.ai/new", pathname := "/new" }

/-- A storage that already holds a fallback id. -/
def usedStorage : Storage := [("agenticMemorySession", "chatgpt-1700000000000-k3x9q2m1z")]

/-- A `generateSessionId` for the Claude script that returns a fixed id. -/
def fixedSessionId (storage : Storage) : Except String (String × Storage) :=
  .ok ("claude-1", storage)

/-- What the Claude script answers on `page` with `fixedSessionId`. -/
def claudeAnswer : Response :=
  { provider := some "claude", sessionId := some "claude-1",
    messages := some [⟨"user", "Hello"⟩, ⟨"assistant", "Hello"⟩, ⟨"assistant", "Hi there"⟩],
    timestamp := some "t", url := some "https://claude.ai/new" }

/-- The conversation of the payload example: `a`, `b`, `c`. -/
def abc : Response :=
  { provider := some "chatgpt", sessionId := some "abc123",
    messages := some [⟨"user", "a"⟩, ⟨"assistant", "b"⟩, ⟨"user", "c"⟩],
    timestamp := some "2025-01-01T00:00:00.000Z", url := some "https://chatgpt.com/c/abc123" }

/-- The popup after the extraction of `abc`. -/
def extracted : Popup.State :=
  { state := "extracted", conversation := some abc }

/-- A session of the popup: extract, the tab is found, the content script answers with
`abc`, process, the backend answers 200 with an empty object. -/
def session : List Popup.Event :=
  [ .click "extractBtn",
    .tabsSettled (.ok [{ id := some 7, url := some "https://chatgpt.com/c/abc123" }]),
    .answered (some 7) none (some abc),
    .click "processBtn",
    .fetchSettled
      { conversation_input :=
          { session_id := some "abc123", user_message := "c",
            conversation_history := [⟨"user", "a"⟩, ⟨"assistant", "b"⟩, ⟨"user", "c"⟩] },
        target_provider := some "chatgpt", retrieve_context := true, apply_policies := true }
      (.ok { status := 200, text := .ok "\x7b\x7d", json := .ok (some {}) }) ]

/-- The popup after a backend answer with the given stored memories. -/
def processed (memories : List Popup.Memory) : Popup.State :=
  { state := "processed", conversation := some abc,
    processedContext := some { stored_memories := some memories } }

end Fixture

/-! ## Lemmas on strings -/

theorem dropWhile_rdropWhile_dropWhile (p : Char → Bool) (l : List Char) :
    ((l.dropWhile p).rdropWhile p).dropWhile p = (l.dropWhile p).rdropWhile p := by
  have hpre : (l.dropWhile p).rdropWhile p <+: l.dropWhile p := List.rdropWhile_prefix p _
  cases hr : (l.dropWhile p).rdropWhile p with
  | nil => rfl
  | cons a r =>
    rw [hr] at hpre
    obtain ⟨t, ht⟩ := hpre
    have hhead : (l.dropWhile p).head? = some a := by rw [← ht]; rfl
    have hpa : p a = false := by
      have := List.head?_dropWhile_not p l
      rw [hhead] at this
      simpa using this
    simp [List.dropWhile, hpa]

theorem trim_trim (s : String) : trim (trim s) = trim s := by
  unfold trim
  simp only [dropWhile_rdropWhile_dropWhile, List.rdropWhile_idempotent]

theorem includesChars_append (t a b : List Char) : includesChars t (a ++ (t ++ b)) = true := by
  induction a with
  | nil =>
    cases h : t ++ b with
    | nil =>
      have : t = [] := (List.append_eq_nil.mp h).1
      simp [includesChars, this]
    | cons c cs =>
      rw [← h]
      have hp : t.isPrefixOf (t ++ b) = true := List.isPrefixOf_iff_prefix.mpr ⟨b, rfl⟩
      rw [h] at hp ⊢
      simp [includesChars, hp]
  | cons c a ih =>
    show (t.isPrefixOf (c :: (a ++ (t ++ b))) || includesChars t (a ++ (t ++ b))) = true
    rw [ih, Bool.or_true]

theorem includes_append (a t b : String) : includes (a ++ t ++ b) t = true := by
  unfold includes
  simp only [String.data_append, List.append_assoc]
  exact includesChars_append _ _ _

/-! ## Lemmas on the `forEach` loops -/

theorem foldl_push_filter {α β : Type} (c : α → Bool) (mk : α → β) (g : List β → α → List β)
    (hg : ∀ acc e, g acc e = if c e then acc ++ [mk e] else acc) (l : List α) (init : List β) :
    l.foldl g init = init ++ (l.filter c).map mk := by
  induction l generalizing init with
  | nil => simp
  | cons e l ih =>
    rw [List.foldl_cons, ih, hg]
    by_cases h : c e = true
    · simp [h, List.filter_cons]
    · simp [h, List.filter_cons]

theorem chatgpt_visit_foldl (turns : List Node) :
    turns.foldl ChatGPT.visit []
      = (turns.filter (fun e => decide (trim (ChatGPT.resolveContent e) ≠ ""))).map
          (fun e => { role := if e.getAttribute "data-message-author-role" = some "user"
                              then "user" else "assistant",
                      content := trim (ChatGPT.resolveContent e) }) := by
  refine (foldl_push_filter (fun e => decide (trim (ChatGPT.resolveContent e) ≠ ""))
    (fun e => ({ role := if e.getAttribute "data-message-author-role" = some "user"
                         then "user" else "assistant",
                 content := trim (ChatGPT.resolveContent e) } : Message))
    ChatGPT.visit ?_ turns []).trans (by simp)
  intro acc e
  by_cases h : trim (ChatGPT.resolveContent e) = "" <;> simp [ChatGPT.visit, h]

theorem gemini_visit_foldl (turns : List Node) :
    turns.foldl Gemini.visit []
      = (turns.filter (fun e => decide (trim (Gemini.resolveContent e) ≠ ""))).map
          (fun e => { role := if Gemini.isUser e then "user" else "assistant",
                      content := trim (Gemini.resolveContent e) }) := by
  refine (foldl_push_filter (fun e => decide (trim (Gemini.resolveContent e) ≠ ""))
    (fun e => ({ role := if Gemini.isUser e then "user" else "assistant",
                 content := trim (Gemini.resolveContent e) } : Message))
    Gemini.visit ?_ turns []).trans (by simp)
  intro acc e
  by_cases h : trim (Gemini.resolveContent e) = "" <;> simp [Gemini.visit, h]

theorem claude_visit_foldl (groups : List Node) :
    groups.foldl Claude.visit []
      = (groups.filter (fun e => decide (Claude.resolveContent e ≠ ""))).map
          (fun e => { role := if Claude.isUser e then "user" else "assistant",
                      content := Claude.resolveContent e }) := by
  refine (foldl_push_filter (fun e => decide (Claude.resolveContent e ≠ ""))
    (fun e => ({ role := if Claude.isUser e then "user" else "assistant",
                 content := Claude.resolveContent e } : Message))
    Claude.visit ?_ groups []).trans (by simp)
  intro acc e
  by_cases h : Claude.resolveContent e = "" <;> simp [Claude.visit, h]

theorem chatgpt_extract_messages (document : Document) (location : Location)
    (storage : Storage) (now : Nat) (random timestamp : String) :
    (ChatGPT.extractConversation document location storage now random timestamp).1.messages
      = some ((document.querySelectorAll [.hasAttr "data-message-author-role"]).foldl
          ChatGPT.visit []) := by
  unfold ChatGPT.extractConversation
  cases ChatGPT.matchConversationId location.pathname.data <;> rfl

theorem gemini_extract_messages (document : Document) (location : Location)
    (storage : Storage) (now : Nat) (random timestamp : String) :
    (Gemini.extractConversation document location storage now random timestamp).1.messages
      = some ((document.querySelectorAll Gemini.turnSelector).foldl Gemini.visit []) := by
  rfl

/-! ## Extraction returns the non-blank turns -/

/-- C1: in the ChatGPT extractor and in the Gemini extractor the returned messages are
the matched turn elements whose resolved content is not blank, in document order, each
with the trimmed content; every returned content is non-empty and equal to its own trim;
when every matched turn has non-blank content there are as many messages as turns. -/
theorem extractors_return_nonblank_turns (document : Document) (location : Location)
    (storage : Storage) (now : Nat) (random timestamp : String) :
    (∃ msgs : List Message,
      (ChatGPT.extractConversation document location storage now random timestamp).1.messages
        = some msgs ∧
      msgs.map (fun m => m.content)
        = ((document.querySelectorAll [.hasAttr "data-message-author-role"]).filter
            (fun e => decide (trim (ChatGPT.resolveContent e) ≠ ""))).map
            (fun e => trim (ChatGPT.resolveContent e)) ∧
      (∀ m ∈ msgs, m.content ≠ "" ∧ trim m.content = m.content) ∧
      ((∀ e ∈ document.querySelectorAll [.hasAttr "data-message-author-role"],
          trim (ChatGPT.resolveContent e) ≠ "") →
        msgs.length = (document.querySelectorAll [.hasAttr "data-message-author-role"]).length))
    ∧
    (∃ msgs : List Message,
      (Gemini.extractConversation document location storage now random timestamp).1.messages
        = some msgs ∧
      msgs.map (fun m => m.content)
        = ((document.querySelectorAll Gemini.turnSelector).filter
            (fun e => decide (trim (Gemini.resolveContent e) ≠ ""))).map
            (fun e => trim (Gemini.resolveContent e)) ∧
      (∀ m ∈ msgs, m.content ≠ "" ∧ trim m.content = m.content) ∧
      ((∀ e ∈ document.querySelectorAll Gemini.turnSelector,
          trim (Gemini.resolveContent e) ≠ "") →
        msgs.length = (document.querySelectorAll Gemini.turnSelector).length)) := by
  constructor
  · refine ⟨_, chatgpt_extract_messages _ _ _ _ _ _, ?_, ?_, ?_⟩
    · rw [chatgpt_visit_foldl, List.map_map]; rfl
    · intro m hm
      rw [chatgpt_visit_foldl] at hm
      obtain ⟨e, he, rfl⟩ := List.mem_map.mp hm
      have hne := (List.mem_filter.mp he).2
      exact ⟨by simpa using hne, trim_trim _⟩
    · intro hall
      rw [chatgpt_visit_foldl, List.length_map, List.filter_eq_self.mpr]
      intro e he
      simpa using hall e he
  · refine ⟨_, gemini_extract_messages _ _ _ _ _ _, ?_, ?_, ?_⟩
    · rw [gemini_visit_foldl, List.map_map]; rfl
    · intro m hm
      rw [gemini_visit_foldl] at hm
      obtain ⟨e, he, rfl⟩ := List.mem_map.mp hm
      have hne := (List.mem_filter.mp he).2
      exact ⟨by simpa using hne, trim_trim _⟩
    · intro hall
      rw [gemini_visit_foldl, List.length_map, List.filter_eq_self.mpr]
      intro e he
      simpa using hall e he

/-! ## Role resolution -/

theorem forall₂_map_of_forall {α β : Type} (R : β → α → Prop) (mk : α → β) (l : List α)
    (h : ∀ e ∈ l, R (mk e) e) : List.Forall₂ R (l.map mk) l := by
  rw [List.forall₂_map_left_iff]
  exact List.forall₂_same.mpr h

/-- C2: in each of the three extractors the role of a returned message is determined by
its turn element: it is `user` exactly when the user signal of the provider is positive
for that element, it is `assistant` otherwise, and it is never a third value. -/
theorem role_is_user_iff_signal (document : Document) (location : Location)
    (storage : Storage) (now : Nat) (random timestamp : String)
    (generateSessionId : Storage → Except String (String × Storage))
    (r : Response) (storage1 : Storage)
    (hClaude : Claude.extractConversation generateSessionId document location storage timestamp
      = .ok (r, storage1)) :
    (∃ msgs : List Message,
      (ChatGPT.extractConversation document location storage now random timestamp).1.messages
        = some msgs ∧
      List.Forall₂
        (fun m e => (m.role = "user" ∨ m.role = "assistant") ∧
          (m.role = "user" ↔ e.getAttribute "data-message-author-role" = some "user") ∧
          (m.role = "assistant" ↔ e.getAttribute "data-message-author-role" ≠ some "user"))
        msgs
        ((document.querySelectorAll [.hasAttr "data-message-author-role"]).filter
          (fun e => decide (trim (ChatGPT.resolveContent e) ≠ "")))) ∧
    (∃ msgs : List Message,
      (Gemini.extractConversation document location storage now random timestamp).1.messages
        = some msgs ∧
      List.Forall₂
        (fun m e => (m.role = "user" ∨ m.role = "assistant") ∧
          (m.role = "user" ↔ ∃ c, e.getAttribute "class" = some c ∧
            (includes c "query" = true ∨ includes c "user" = true)) ∧
          (m.role = "assistant" ↔ ¬ ∃ c, e.getAttribute "class" = some c ∧
            (includes c "query" = true ∨ includes c "user" = true)))
        msgs
        ((document.querySelectorAll Gemini.turnSelector).filter
          (fun e => decide (trim (Gemini.resolveContent e) ≠ "")))) ∧
    (∃ msgs : List Message,
      r.messages = some msgs ∧
      List.Forall₂
        (fun m e => (m.role = "user" ∨ m.role = "assistant") ∧
          (m.role = "user" ↔
            (e.querySelector [.attrEq "data-testid" "user-message"]).isSome = true) ∧
          (m.role = "assistant" ↔
            (e.querySelector [.attrEq "data-testid" "user-message"]).isSome = false))
        msgs
        ((((Claude.conversationDiv document).map
            (fun div => div.querySelectorAll [.attrContains "data-testid" "message"])).getD
            []).filter
          (fun e => decide (Claude.resolveContent e ≠ "")))) := by
  refine ⟨⟨_, chatgpt_extract_messages _ _ _ _ _ _, ?_⟩,
    ⟨_, gemini_extract_messages _ _ _ _ _ _, ?_⟩, ?_⟩
  · rw [chatgpt_visit_foldl]
    apply forall₂_map_of_forall
    intro e _
    by_cases h : e.getAttribute "data-message-author-role" = some "user" <;> simp [h]
  · rw [gemini_visit_foldl]
    apply forall₂_map_of_forall
    intro e _
    have hsig : Gemini.isUser e = true ↔ ∃ c, e.getAttribute "class" = some c ∧
        (includes c "query" = true ∨ includes c "user" = true) := by
      unfold Gemini.isUser
      cases e.getAttribute "class" <;> simp
    by_cases h : Gemini.isUser e = true
    · have h2 := hsig.mp h
      simp [h, h2]
    · have h2 : ¬ ∃ c, e.getAttribute "class" = some c ∧
          (includes c "query" = true ∨ includes c "user" = true) := fun hc => h (hsig.mpr hc)
      simp [h, h2]
  · unfold Claude.extractConversation at hClaude
    cases hdiv : Claude.conversationDiv document with
    | none =>
      rw [hdiv] at hClaude
      simp only [Except.ok.injEq, Prod.mk.injEq] at hClaude
      refine ⟨[], by rw [← hClaude.1], ?_⟩
      simp
    | some div =>
      rw [hdiv] at hClaude
      simp only at hClaude
      cases hgen : generateSessionId storage with
      | error e => rw [hgen] at hClaude; cases hClaude
      | ok v =>
        obtain ⟨sessionId, st⟩ := v
        rw [hgen] at hClaude
        simp only [Except.ok.injEq, Prod.mk.injEq] at hClaude
        refine ⟨_, by rw [← hClaude.1], ?_⟩
        rw [claude_visit_foldl]
        simp only [Option.map_some', Option.getD_some]
        apply forall₂_map_of_forall
        intro e _
        unfold Claude.isUser
        cases (e.querySelector [.attrEq "data-testid" "user-message"]).isSome <;> simp

/-! ## The popup: payload, extraction callback, backend failure -/

theorem getElem?_length_sub_one {α : Type} (l : List α) : l[l.length - 1]? = l.getLast? := by
  rw [List.getLast?_eq_getElem?]

theorem string_append_ne_empty (a b : String) (ha : a ≠ "") : a ++ b ≠ "" := by
  intro h
  have hd := congrArg String.data h
  rw [String.data_append] at hd
  have : a.data = [] := (List.append_eq_nil.mp hd).1
  exact ha (String.ext this)

/-- C3: for a conversation with a non-empty message list, `processContext` sends one
request whose payload has `user_message` equal to the content of the last message,
`conversation_history` equal to the whole message list, `session_id` equal to the
`sessionId` of the conversation and `target_provider` equal to its `provider`. -/
theorem processContext_payload (s : Popup.State) (c : Response) (messages : List Message)
    (hc : s.conversation = some c) (hm : c.messages = some messages) (hne : messages ≠ []) :
    ∃ payload : Popup.Payload,
      (Popup.processContext s).2 = [Popup.Effect.fetch payload] ∧
      some payload.conversation_input.user_message
        = messages.getLast?.map (fun m => m.content) ∧
      payload.conversation_input.conversation_history = messages ∧
      payload.conversation_input.conversation_history.length = messages.length ∧
      payload.conversation_input.session_id = c.sessionId ∧
      payload.target_provider = c.provider := by
  obtain ⟨last, hlast⟩ : ∃ last, messages.getLast? = some last := by
    cases h : messages.getLast? with
    | none => exact absurd (List.getLast?_eq_none_iff.mp h) hne
    | some last => exact ⟨last, rfl⟩
  have hidx : messages[messages.length - 1]? = some last := by
    rw [getElem?_length_sub_one, hlast]
  refine ⟨{ conversation_input :=
              { session_id := c.sessionId, user_message := last.content,
                conversation_history := messages },
            target_provider := c.provider, retrieve_context := true, apply_policies := true },
    ?_, ?_, rfl, rfl, rfl, rfl⟩
  · simp [Popup.processContext, Popup.buildPayload, hc, hm, hidx]
  · simp [hlast]

/-- C4: a response delivered to the extraction callback while the popup is extracting
(state `loading`, error `null`).  Without transport error and with a message list of at
least one message the popup goes to `extracted`, `conversation` is the response and
`error` stays `null`; in every other case it goes to `idle` with a non-empty error text
and `conversation` is unchanged. -/
theorem extraction_callback_outcome (s : Popup.State) (lastError : Option String)
    (response : Option Response) (_hstate : s.state = "loading") (herr : s.error = none) :
    ((lastError = none ∧ ∃ r ms, response = some r ∧ r.messages = some ms ∧ ms ≠ []) →
      Popup.extractConversation_callback s lastError response
        = { state := "extracted", conversation := response,
            processedContext := s.processedContext, error := none }) ∧
    (¬ (lastError = none ∧ ∃ r ms, response = some r ∧ r.messages = some ms ∧ ms ≠ []) →
      (Popup.extractConversation_callback s lastError response).state = "idle" ∧
      (∃ e, (Popup.extractConversation_callback s lastError response).error = some e ∧
        e ≠ "") ∧
      (Popup.extractConversation_callback s lastError response).conversation
        = s.conversation ∧
      (Popup.extractConversation_callback s lastError response).processedContext
        = s.processedContext) := by
  have hiff : Popup.hasMessages response = true ↔
      ∃ r ms, response = some r ∧ r.messages = some ms ∧ ms ≠ [] := by
    unfold Popup.hasMessages
    cases response with
    | none => simp
    | some r =>
      cases hms : r.messages with
      | none => simp [hms]
      | some ms => cases ms <;> simp [hms]
  constructor
  · rintro ⟨hle, hresp⟩
    subst hle
    simp [Popup.extractConversation_callback, hiff.mpr hresp, herr]
  · intro hnot
    cases lastError with
    | some message =>
      refine ⟨rfl, ⟨_, rfl, ?_⟩, rfl, rfl⟩
      exact string_append_ne_empty _ _ (by decide)
    | none =>
      have hfalse : Popup.hasMessages response = false := by
        cases h : Popup.hasMessages response with
        | false => rfl
        | true => exact absurd ⟨rfl, hiff.mp h⟩ hnot
      simp only [Popup.extractConversation_callback, hfalse]
      refine ⟨rfl, ⟨_, rfl, by decide⟩, rfl, rfl⟩

/-- C5: when the backend answers the request of `processContext` with a status outside
200-299 and a body, the popup ends in state `extracted` with an error text that contains
the decimal numeral of the status; `conversation` and `processedContext` are those from
before the call. -/
theorem backend_failure_returns_to_extracted (s s1 : Popup.State) (payload : Popup.Payload)
    (status : Nat) (body : String) (json : Except String (Option Popup.ProcessedContext))
    (hsent : Popup.processContext s = (s1, [Popup.Effect.fetch payload]))
    (hstatus : ¬ (200 ≤ status ∧ status ≤ 299)) :
    (Popup.processContext_settled s1 (.ok ⟨status, .ok body, json⟩)).state = "extracted" ∧
    (∃ e, (Popup.processContext_settled s1 (.ok ⟨status, .ok body, json⟩)).error = some e ∧
      includes e (toString status) = true) ∧
    (Popup.processContext_settled s1 (.ok ⟨status, .ok body, json⟩)).conversation
      = s.conversation ∧
    (Popup.processContext_settled s1 (.ok ⟨status, .ok body, json⟩)).processedContext
      = s.processedContext := by
  have hs1 : s1 = { s with state := "loading", error := none } := by
    unfold Popup.processContext at hsent
    simp only at hsent
    cases hb : Popup.buildPayload s.conversation with
    | error e => rw [hb] at hsent; simp at hsent
    | ok p => rw [hb] at hsent; simp at hsent; exact hsent.1.symm
  have hok : Popup.FetchResponse.ok ⟨status, .ok body, json⟩ = false := by
    simp only [Popup.FetchResponse.ok]
    by_cases h1 : 200 ≤ status
    · have h2 : ¬ status ≤ 299 := fun h => hstatus ⟨h1, h⟩
      simp [h1, h2]
    · simp [h1]
  subst hs1
  have hres : Popup.processContext_settled { s with state := "loading", error := none }
      (.ok ⟨status, .ok body, json⟩)
      = { state := "extracted", conversation := s.conversation,
          processedContext := s.processedContext,
          error := some (Popup.failedToProcess ("Backend returned " ++ toString status)) } := by
    simp [Popup.processContext_settled, hok]
  rw [hres]
  refine ⟨rfl, ⟨_, rfl, ?_⟩, rfl, rfl⟩
  unfold Popup.failedToProcess
  have h := includes_append "Failed to process: Backend returned " (toString status)
    (". Is backend running on " ++ Popup.API_BASE ++ "?")
  simpa [String.append_assoc] using h

/-! ## No second extraction while loading -/

/-- The listener `extractConversation` has no guard of its own: run in any state it
asks for the active tab again.  The guard is that `render` mounts its button in state
`idle` only. -/
theorem extractConversation_unguarded (s : Popup.State) :
    (Popup.extractConversation s).2 = [Popup.Effect.tabsQuery] := rfl

/-- C6: while the popup is extracting or processing (state `loading`) the page has no
button, so a click on the extract button reaches no listener: the four variables keep
their values and no request is started. -/
theorem no_extraction_while_loading (s : Popup.State) (hstate : s.state = "loading") :
    (∃ view, Popup.render s = .ok view ∧ view.buttons = []) ∧
    Popup.click "extractBtn" s = some (s, []) := by
  have hrender : Popup.render s
      = .ok { error := (match s.error with
                        | some e => if e = "" then none else some e
                        | none => none),
              loading := some (if s.conversation.isSome then "Processing context..."
                               else "Extracting conversation..."),
              memoryBreakdown := none, buttons := [] } := by
    simp [Popup.render, hstate]
  refine ⟨⟨_, hrender, rfl⟩, ?_⟩
  simp [Popup.click, hrender]

/-! ## Session identifiers -/

theorem getItem_setItem (st : Storage) (key value : String) :
    Storage.getItem (Storage.setItem st key value) key = some value := by
  unfold Storage.getItem Storage.setItem
  by_cases h : st.any (fun p => p.1 == key) = true
  · rw [if_pos h]
    induction st with
    | nil => simp at h
    | cons p st ih =>
      by_cases hp : p.1 = key
      · have hb : (p.1 == key) = true := by simp [hp]
        have hhead : (if (p.1 == key) = true then (key, value) else p) = (key, value) := by
          simp [hb]
        rw [List.map_cons, hhead, List.find?_cons]
        simp
      · have hb : (p.1 == key) = false := by simp [hp]
        have h2 : st.any (fun p => p.1 == key) = true := by
          simpa [List.any_cons, hb] using h
        simp only [List.map_cons, hb, List.find?_cons, Bool.false_eq_true, ↓reduceIte]
        exact ih h2
  · rw [if_neg h]
    have hnone : st.find? (fun p => p.1 == key) = none := by
      rw [List.find?_eq_none]
      intro x hx hxk
      exact h (List.any_eq_true.mpr ⟨x, hx, hxk⟩)
    simp [List.find?_append, hnone, List.find?]

theorem fresh_ne_empty (tag : String) (htag : tag ≠ "") (now : Nat) (random : String) :
    tag ++ toString now ++ "-" ++ substr random 2 9 ≠ "" :=
  string_append_ne_empty _ _
    (string_append_ne_empty _ _ (string_append_ne_empty _ _ htag))

/-- C7: `generateSessionId`, called twice without a write in between, returns the same
non-empty id both times; the second call leaves the storage as the first call left it,
with the id under the key `agenticMemorySession`.  This holds in the ChatGPT and in the
Gemini script, for every storage and all clock and random values of the two calls. -/
theorem generateSessionId_idempotent (storage : Storage) (now1 now2 : Nat)
    (random1 random2 : String) :
    ((ChatGPT.generateSessionId (ChatGPT.generateSessionId storage now1 random1).2
          now2 random2).1 = (ChatGPT.generateSessionId storage now1 random1).1 ∧
      (ChatGPT.generateSessionId storage now1 random1).1 ≠ "" ∧
      (ChatGPT.generateSessionId (ChatGPT.generateSessionId storage now1 random1).2
          now2 random2).2 = (ChatGPT.generateSessionId storage now1 random1).2 ∧
      Storage.getItem (ChatGPT.generateSessionId storage now1 random1).2
          "agenticMemorySession" = some (ChatGPT.generateSessionId storage now1 random1).1) ∧
    ((Gemini.generateSessionId (Gemini.generateSessionId storage now1 random1).2
          now2 random2).1 = (Gemini.generateSessionId storage now1 random1).1 ∧
      (Gemini.generateSessionId storage now1 random1).1 ≠ "" ∧
      (Gemini.generateSessionId (Gemini.generateSessionId storage now1 random1).2
          now2 random2).2 = (Gemini.generateSessionId storage now1 random1).2 ∧
      Storage.getItem (Gemini.generateSessionId storage now1 random1).2
          "agenticMemorySession" = some (Gemini.generateSessionId storage now1 random1).1) := by
  have hc := fresh_ne_empty "chatgpt-" (by decide) now1 random1
  have hg := fresh_ne_empty "gemini-" (by decide) now1 random1
  constructor
  · cases hget : Storage.getItem storage "agenticMemorySession" with
    | none =>
      simp [ChatGPT.generateSessionId, hget, getItem_setItem, hc]
    | some id =>
      by_cases hid : id = ""
      · simp [ChatGPT.generateSessionId, hget, hid, getItem_setItem, hc]
      · simp [ChatGPT.generateSessionId, hget, hid]
  · cases hget : Storage.getItem storage "agenticMemorySession" with
    | none =>
      simp [Gemini.generateSessionId, hget, getItem_setItem, hg]
    | some id =>
      by_cases hid : id = ""
      · simp [Gemini.generateSessionId, hget, hid, getItem_setItem, hg]
      · simp [Gemini.generateSessionId, hget, hid]

theorem takeWhile_run (run rest : List Char) (hrun : ∀ c ∈ run, c ≠ '/')
    (hrest : rest = [] ∨ rest.head? = some '/') :
    (run ++ rest).takeWhile (fun c => c != '/') = run := by
  induction run with
  | nil =>
    rcases hrest with h | h
    · simp [h]
    · cases rest with
      | nil => simp at h
      | cons a t =>
        have ha : a = '/' := by simpa using h
        simp [List.takeWhile, ha]
  | cons a run ih =>
    have ha : a ≠ '/' := hrun a (List.mem_cons_self _ _)
    have ih2 := ih (fun c hc => hrun c (List.mem_cons_of_mem _ hc))
    have hb : (a != '/') = true := by simp [ha]
    rw [List.cons_append, List.takeWhile_cons, hb, ih2]
    rfl

theorem matchHere_run (run rest : List Char) (hne : run ≠ [])
    (hrun : ∀ c ∈ run, c ≠ '/') (hrest : rest = [] ∨ rest.head? = some '/') :
    ChatGPT.matchHere ('/' :: 'c' :: '/' :: (run ++ rest)) = some run := by
  have hp : ['/', 'c', '/'].isPrefixOf ('/' :: 'c' :: '/' :: (run ++ rest)) = true :=
    List.isPrefixOf_iff_prefix.mpr ⟨run ++ rest, rfl⟩
  unfold ChatGPT.matchHere
  rw [if_pos hp]
  simp only [List.drop_succ_cons, List.drop_zero]
  rw [takeWhile_run run rest hrun hrest]
  cases run with
  | nil => exact absurd rfl hne
  | cons a t => simp

theorem matchHere_shape (s r : List Char) (h : ChatGPT.matchHere s = some r) :
    ∃ c rest, s = '/' :: 'c' :: '/' :: c :: rest ∧ c ≠ '/' := by
  unfold ChatGPT.matchHere at h
  by_cases hp : ['/', 'c', '/'].isPrefixOf s = true
  · rw [if_pos hp] at h
    obtain ⟨t, ht⟩ := List.isPrefixOf_iff_prefix.mp hp
    subst ht
    cases t with
    | nil => simp at h
    | cons c rest =>
      refine ⟨c, rest, rfl, ?_⟩
      intro hc
      subst hc
      simp [List.takeWhile] at h
  · rw [if_neg hp] at h
    cases h

theorem matchConversationId_first (pre run rest : List Char) (hne : run ≠ [])
    (hrun : ∀ c ∈ run, c ≠ '/') (hrest : rest = [] ∨ rest.head? = some '/')
    (hfirst : ∀ pre1 c rest1, pre ++ '/' :: 'c' :: '/' :: (run ++ rest)
        = pre1 ++ '/' :: 'c' :: '/' :: c :: rest1 → c ≠ '/' → pre.length ≤ pre1.length) :
    ChatGPT.matchConversationId (pre ++ '/' :: 'c' :: '/' :: (run ++ rest)) = some run := by
  induction pre with
  | nil =>
    simp only [List.nil_append, ChatGPT.matchConversationId,
      matchHere_run run rest hne hrun hrest]
  | cons a pre ih =>
    have hnone : ChatGPT.matchHere (a :: (pre ++ '/' :: 'c' :: '/' :: (run ++ rest))) = none := by
      cases hm : ChatGPT.matchHere (a :: (pre ++ '/' :: 'c' :: '/' :: (run ++ rest))) with
      | none => rfl
      | some r =>
        obtain ⟨c, rest1, hs, hc⟩ := matchHere_shape _ _ hm
        have := hfirst [] c rest1 (by simpa using hs) hc
        simp at this
    have ih2 := ih (fun pre1 c rest1 heq hc => by
      have := hfirst (a :: pre1) c rest1 (by simp [heq]) hc
      simpa using this)
    rw [List.cons_append, ChatGPT.matchConversationId, hnone]
    exact ih2

/-- C8: when the pathname contains `/c/` followed by a non-empty run of characters other
than `/` (ending at the next `/` or at the end of the path, and no such occurrence
starts earlier), the ChatGPT extractor returns that run as `sessionId`, for every
storage: the storage is left as it was and the result does not depend on it. -/
theorem chatgpt_url_id_is_authoritative (document : Document) (location : Location)
    (storage : Storage) (now : Nat) (random timestamp : String) (pre run rest : List Char)
    (hpath : location.pathname.data = pre ++ '/' :: 'c' :: '/' :: (run ++ rest))
    (hne : run ≠ []) (hrun : ∀ c ∈ run, c ≠ '/')
    (hrest : rest = [] ∨ rest.head? = some '/')
    (hfirst : ∀ pre1 c rest1, location.pathname.data
        = pre1 ++ '/' :: 'c' :: '/' :: c :: rest1 → c ≠ '/' → pre.length ≤ pre1.length) :
    (ChatGPT.extractConversation document location storage now random timestamp).1.sessionId
      = some (String.mk run) ∧
    (ChatGPT.extractConversation document location storage now random timestamp).2 = storage ∧
    ∀ (storage2 : Storage) (now2 : Nat) (random2 : String),
      (ChatGPT.extractConversation document location storage2 now2 random2 timestamp).1
        = (ChatGPT.extractConversation document location storage now random timestamp).1 := by
  have hmatch : ChatGPT.matchConversationId location.pathname.data = some run := by
    rw [hpath]
    exact matchConversationId_first pre run rest hne hrun hrest
      (fun pre1 c rest1 heq hc => hfirst pre1 c rest1 (hpath.trans heq) hc)
  refine ⟨?_, ?_, ?_⟩
  · simp [ChatGPT.extractConversation, hmatch]
  · simp [ChatGPT.extractConversation, hmatch]
  · intro storage2 now2 random2
    simp [ChatGPT.extractConversation, hmatch]

/-! ## The Claude extractor without conversation container -/

/-- C10: when the document has no element with `data-testid="conversation-content"` and
no `main` element, the Claude extractor returns without exception the fixed object
`{ provider: 'claude', messages: [], error: 'No conversation found' }`: the message list
has length 0 and the error field is set, whatever else the document holds, without a
call of `generateSessionId` and with the storage as it was. -/
theorem claude_without_container (generateSessionId : Storage → Except String (String × Storage))
    (document : Document) (location : Location) (storage : Storage) (timestamp : String)
    (hcontent : ∀ n ∈ subtreeList document.children,
      n.getAttribute "data-testid" ≠ some "conversation-content")
    (hmain : ∀ t attrs i cs, Node.element t attrs i cs ∈ subtreeList document.children →
      t ≠ "main") :
    Claude.extractConversation generateSessionId document location storage timestamp
      = .ok ({ provider := some "claude", messages := some [],
               error := some "No conversation found" }, storage) ∧
    ∃ r, Claude.extractConversation generateSessionId document location storage timestamp
        = .ok (r, storage) ∧
      r.messages.map List.length = some 0 ∧ r.error ≠ none := by
  have h1 : document.querySelector [.attrEq "data-testid" "conversation-content"] = none := by
    unfold Document.querySelector
    rw [List.find?_eq_none]
    intro n hn
    cases n with
    | text d => simp [matchesAny, Selector.test]
    | element t attrs i cs =>
      have := hcontent _ hn
      simpa [matchesAny, Selector.test] using this
  have h2 : document.querySelector [.tag "main"] = none := by
    unfold Document.querySelector
    rw [List.find?_eq_none]
    intro n hn
    cases n with
    | text d => simp [matchesAny, Selector.test]
    | element t attrs i cs =>
      have := hmain t attrs i cs hn
      simpa [matchesAny, Selector.test] using this
  have hres : Claude.extractConversation generateSessionId document location storage timestamp
      = .ok ({ provider := some "claude", messages := some [],
               error := some "No conversation found" }, storage) := by
    simp [Claude.extractConversation, Claude.conversationDiv, h1, h2]
  exact ⟨hres, _, hres, rfl, by simp⟩

/-! ## The memory breakdown -/

/-- C9: the memory breakdown on three inputs.  For the memories `fact`, `fact`,
`preference` it shows `fact` with 2 and `preference` with 1.  For one memory of type
`constructor` the count shown is not the number 1 but a text, because
`memoryTypes['constructor']` reads the inherited property of the object literal; for one
memory of type `__proto__` the breakdown has no entry at all. -/
theorem memory_breakdown_inherited_keys :
    Popup.render (Fixture.processed [⟨some "fact"⟩, ⟨some "fact"⟩, ⟨some "preference"⟩])
      = .ok { error := none, loading := none,
              memoryBreakdown := some [("fact", .num 2), ("preference", .num 1)],
              buttons := ["copySystemBtn", "copyFullBtn", "copyJsonBtn", "chatBtn"] } ∧
    Popup.render (Fixture.processed [⟨some "constructor"⟩])
      = .ok { error := none, loading := none,
              memoryBreakdown :=
                some [("constructor", .str "function Object() \x7b [native code] \x7d1")],
              buttons := ["copySystemBtn", "copyFullBtn", "copyJsonBtn", "chatBtn"] } ∧
    Popup.render (Fixture.processed [⟨some "__proto__"⟩])
      = .ok { error := none, loading := none, memoryBreakdown := some [],
              buttons := ["copySystemBtn", "copyFullBtn", "copyJsonBtn", "chatBtn"] } :=
  ⟨rfl, rfl, rfl⟩

theorem own_some_mem (tbl : Popup.MemoryTypes) (t : String) (v : Popup.Count)
    (h : tbl.own t = some v) : (t, v) ∈ tbl := by
  unfold Popup.MemoryTypes.own at h
  cases hf : tbl.find? (fun p => p.1 == t) with
  | none => rw [hf] at h; cases h
  | some p =>
    rw [hf] at h
    have hv : p.2 = v := by simpa using h
    have hk : p.1 = t := by simpa using List.find?_some hf
    have hm := List.mem_of_find?_eq_some hf
    rw [← hk, ← hv]
    exact hm

theorem own_none_not_mem (tbl : Popup.MemoryTypes) (t : String) (h : tbl.own t = none) :
    t ∉ tbl.map Prod.fst := by
  unfold Popup.MemoryTypes.own at h
  have hf : tbl.find? (fun p => p.1 == t) = none := by
    cases hf : tbl.find? (fun p => p.1 == t) with
    | none => rfl
    | some p => rw [hf] at h; cases h
  rw [List.find?_eq_none] at hf
  intro hmem
  obtain ⟨p, hp, hpk⟩ := List.mem_map.mp hmem
  exact hf p hp (by simp [hpk])

theorem countStep_invariant (tbl : Popup.MemoryTypes) (pre : List String) (t : String)
    (hsafe : Popup.objectPrototype.find? (fun p => p.1 == t) = none)
    (hnd : (tbl.map Prod.fst).Nodup)
    (hval : ∀ k v, (k, v) ∈ tbl → v = Popup.Count.num (pre.count k))
    (hkeys : ∀ k, k ∈ tbl.map Prod.fst ↔ k ∈ pre) :
    ((tbl.assign t (tbl.next t)).map Prod.fst).Nodup ∧
    (∀ k v, (k, v) ∈ tbl.assign t (tbl.next t) → v = Popup.Count.num ((pre ++ [t]).count k)) ∧
    (∀ k, k ∈ (tbl.assign t (tbl.next t)).map Prod.fst ↔ k ∈ pre ++ [t]) := by
  have hproto : t ≠ "__proto__" := by
    intro h
    subst h
    revert hsafe
    decide
  cases hown : tbl.own t with
  | some v =>
    have hmem := own_some_mem tbl t v hown
    have hv := hval t v hmem
    have hany : tbl.any (fun p => p.1 == t) = true :=
      List.any_eq_true.mpr ⟨(t, v), hmem, by simp⟩
    have hnext : tbl.next t = Popup.Count.num (pre.count t + 1) := by
      simp [Popup.MemoryTypes.next, hown, hv]
    have hassign : tbl.assign t (tbl.next t)
        = tbl.map (fun p => if p.1 == t then (t, Popup.Count.num (pre.count t + 1)) else p) := by
      simp [Popup.MemoryTypes.assign, hproto, hany, hnext]
    have hfst : (tbl.map (fun p => if p.1 == t then (t, Popup.Count.num (pre.count t + 1))
        else p)).map Prod.fst = tbl.map Prod.fst := by
      rw [List.map_map]
      apply List.map_congr_left
      intro p _
      by_cases hp : p.1 = t <;> simp [hp]
    have htpre : t ∈ pre := (hkeys t).mp (List.mem_map.mpr ⟨(t, v), hmem, rfl⟩)
    rw [hassign, hfst]
    refine ⟨hnd, ?_, ?_⟩
    · intro k w hkw
      obtain ⟨p, hp, hpe⟩ := List.mem_map.mp hkw
      by_cases hpt : p.1 = t
      · simp [hpt] at hpe
        rw [← hpe.1, ← hpe.2]
        simp [List.count_append]
      · simp [hpt] at hpe
        subst hpe
        have hk : k ≠ t := hpt
        rw [hval k w hp]
        simp [List.count_append, hk]
    · intro k
      rw [hkeys k, List.mem_append, List.mem_singleton]
      constructor
      · exact Or.inl
      · rintro (h | h)
        · exact h
        · rw [h]; exact htpre
  | none =>
    have hnot := own_none_not_mem tbl t hown
    have hany : tbl.any (fun p => p.1 == t) = false := by
      rw [Bool.eq_false_iff]
      intro h
      obtain ⟨p, hp, hpk⟩ := List.any_eq_true.mp h
      exact hnot (List.mem_map.mpr ⟨p, hp, by simpa using hpk⟩)
    have hnext : tbl.next t = Popup.Count.num 1 := by
      simp [Popup.MemoryTypes.next, hown, hsafe]
    have hassign : tbl.assign t (tbl.next t) = tbl ++ [(t, Popup.Count.num 1)] := by
      simp [Popup.MemoryTypes.assign, hproto, hany, hnext]
    have htpre : t ∉ pre := fun h => hnot ((hkeys t).mpr h)
    rw [hassign]
    refine ⟨?_, ?_, ?_⟩
    · rw [List.map_append, List.nodup_append]
      refine ⟨hnd, by simp, ?_⟩
      intro a ha hb
      have : a = t := by simpa using hb
      exact hnot (this ▸ ha)
    · intro k w hkw
      rcases List.mem_append.mp hkw with h | h
      · have hk : k ≠ t := by
          intro hkt
          exact hnot (List.mem_map.mpr ⟨(k, w), h, hkt⟩)
        rw [hval k w h]
        simp [List.count_append, hk]
      · have : k = t ∧ w = Popup.Count.num 1 := by simpa using h
        rw [this.1, this.2]
        simp [List.count_append, List.count_eq_zero_of_not_mem htpre]
    · intro k
      rw [List.map_append, List.mem_append, List.mem_append, hkeys k]
      simp

theorem countFold_invariant (rest : List String) (tbl : Popup.MemoryTypes) (pre : List String)
    (hsafe : ∀ t ∈ rest, Popup.objectPrototype.find? (fun p => p.1 == t) = none)
    (hnd : (tbl.map Prod.fst).Nodup)
    (hval : ∀ k v, (k, v) ∈ tbl → v = Popup.Count.num (pre.count k))
    (hkeys : ∀ k, k ∈ tbl.map Prod.fst ↔ k ∈ pre) :
    ((rest.foldl (fun m t => Popup.MemoryTypes.assign m t (Popup.MemoryTypes.next m t))
        tbl).map Prod.fst).Nodup ∧
    (∀ k v, (k, v) ∈ rest.foldl
        (fun m t => Popup.MemoryTypes.assign m t (Popup.MemoryTypes.next m t)) tbl →
      v = Popup.Count.num ((pre ++ rest).count k)) ∧
    (∀ k, k ∈ (rest.foldl (fun m t => Popup.MemoryTypes.assign m t (Popup.MemoryTypes.next m t))
        tbl).map Prod.fst ↔ k ∈ pre ++ rest) := by
  induction rest generalizing tbl pre with
  | nil => exact ⟨hnd, by simpa using hval, by simpa using hkeys⟩
  | cons t rest ih =>
    obtain ⟨h1, h2, h3⟩ := countStep_invariant tbl pre t
      (hsafe t (List.mem_cons_self _ _)) hnd hval hkeys
    have := ih (tbl.assign t (tbl.next t)) (pre ++ [t])
      (fun u hu => hsafe u (List.mem_cons_of_mem _ hu)) h1 h2 h3
    simpa [List.append_assoc] using this

theorem entries_perm (tbl : Popup.MemoryTypes) : List.Perm tbl.entries tbl := by
  unfold Popup.MemoryTypes.entries
  exact ((List.perm_insertionSort _ _).append_right _).trans (List.filter_append_perm _ _)

/-- The memory breakdown is right on every list in which no memory type is the name of a
property inherited from `Object.prototype`: one entry per distinct type (an absent or
empty type counting as `unknown`), each with the number of memories of that type, and
the counts sum to the length of the list. -/
theorem memory_breakdown_counts (memories : List Popup.Memory)
    (hsafe : ∀ m ∈ memories, ∀ p ∈ Popup.objectPrototype, p.1 ≠ orString m.type "unknown") :
    ((Popup.memoryBreakdown memories).map Prod.fst).Nodup ∧
    (∀ t, t ∈ (Popup.memoryBreakdown memories).map Prod.fst ↔
      ∃ m ∈ memories, orString m.type "unknown" = t) ∧
    (∀ t c, (t, c) ∈ Popup.memoryBreakdown memories →
      c = Popup.Count.num
        ((memories.filter (fun m => orString m.type "unknown" == t)).length)) ∧
    ((Popup.memoryBreakdown memories).map
      (fun p => (memories.filter (fun m => orString m.type "unknown" == p.1)).length)).sum
      = memories.length := by
  have hcount : ∀ t, (memories.map (fun m => orString m.type "unknown")).count t
      = (memories.filter (fun m => orString m.type "unknown" == t)).length := by
    intro t
    rw [List.count_eq_countP, List.countP_map, List.countP_eq_length_filter]
    rfl
  have hsafe2 : ∀ t ∈ memories.map (fun m => orString m.type "unknown"),
      Popup.objectPrototype.find? (fun p => p.1 == t) = none := by
    intro t ht
    obtain ⟨m, hm, rfl⟩ := List.mem_map.mp ht
    rw [List.find?_eq_none]
    intro p hp
    simpa using hsafe m hm p hp
  have hfold : memories.foldl Popup.countMemory []
      = (memories.map (fun m => orString m.type "unknown")).foldl
          (fun m t => Popup.MemoryTypes.assign m t (Popup.MemoryTypes.next m t)) [] := by
    rw [List.foldl_map]
    rfl
  obtain ⟨hnd, hval, hkeys⟩ := countFold_invariant
    (memories.map (fun m => orString m.type "unknown")) [] [] hsafe2 List.nodup_nil
    (fun _ _ h => absurd h (List.not_mem_nil _)) (fun _ => by simp)
  rw [← hfold] at hnd hval hkeys
  have hperm := entries_perm (memories.foldl Popup.countMemory [])
  have hkeys2 : ∀ t, t ∈ (Popup.memoryBreakdown memories).map Prod.fst ↔
      t ∈ memories.map (fun m => orString m.type "unknown") := by
    intro t
    unfold Popup.memoryBreakdown
    rw [(hperm.map Prod.fst).mem_iff, hkeys t, List.nil_append]
  have hnd2 : ((Popup.memoryBreakdown memories).map Prod.fst).Nodup :=
    (hperm.map Prod.fst).nodup_iff.mpr hnd
  refine ⟨hnd2, ?_, ?_, ?_⟩
  · intro t
    rw [hkeys2 t, List.mem_map]
  · intro t c htc
    have hmem : (t, c) ∈ memories.foldl Popup.countMemory [] := hperm.mem_iff.mp htc
    rw [hval t c hmem, List.nil_append, hcount]
  · have hdedup : List.Perm ((Popup.memoryBreakdown memories).map Prod.fst)
        (memories.map (fun m => orString m.type "unknown")).dedup :=
      (List.perm_ext_iff_of_nodup hnd2 (List.nodup_dedup _)).mpr
        (fun t => by rw [hkeys2 t, List.mem_dedup])
    have hsum := List.sum_map_count_dedup_eq_length
      (memories.map (fun m => orString m.type "unknown"))
    have hp2 := (hdedup.map
      (fun t => (memories.map (fun m => orString m.type "unknown")).count t)).sum_eq
    rw [hsum, List.map_map, List.length_map] at hp2
    rw [← hp2]
    congr 1
    apply List.map_congr_left
    intro p _
    simp [hcount]

/-! ## Fallback to the full text -/

theorem claude_resolveContent_fallback (e : Node)
    (hsub : e.querySelector [.cls "font-claude-message"] = none ∨
      ∃ sub, e.querySelector [.cls "font-claude-message"] = some sub ∧
        trim sub.textContent = "") :
    Claude.resolveContent e = trim e.textContent := by
  unfold Claude.resolveContent
  rcases hsub with h | ⟨sub, h, hblank⟩
  · rw [h]; rfl
  · rw [h]; simp [orString, hblank]

theorem chatgpt_resolveContent_blank (e : Node)
    (hsub : e.querySelector ChatGPT.contentSelector = none ∨
      ∃ sub, e.querySelector ChatGPT.contentSelector = some sub ∧
        trim (orString sub.innerText (orString (some sub.textContent) "")) = "") :
    trim (ChatGPT.resolveContent e) = "" := by
  unfold ChatGPT.resolveContent
  rcases hsub with h | ⟨sub, h, hblank⟩
  · rw [h]; decide
  · rw [h]; exact hblank

/-- C11 as stated fails for the ChatGPT extractor: on the sample page the first turn has
no content element and the non-blank text `Hello`, and no returned message has that
content. -/
theorem chatgpt_fallback_counterexample :
    ¬ (∀ e ∈ Fixture.plainPage.querySelectorAll [.hasAttr "data-message-author-role"],
        (e.querySelector ChatGPT.contentSelector = none ∨
          ∃ sub, e.querySelector ChatGPT.contentSelector = some sub ∧
            trim (orString sub.innerText (orString (some sub.textContent) "")) = "") →
        trim e.textContent ≠ "" →
        ∃ msgs, (ChatGPT.extractConversation Fixture.plainPage Fixture.chatLocation [] 5
            "0.4fzyo82mvyr" "t").1.messages = some msgs ∧
          ∃ m ∈ msgs, m.content = trim e.textContent) := by
  intro h
  have hturns : Fixture.plainPage.querySelectorAll [.hasAttr "data-message-author-role"]
      = [Fixture.plainTurn, Fixture.blankContentTurn] := rfl
  have hmem : Fixture.plainTurn
      ∈ Fixture.plainPage.querySelectorAll [.hasAttr "data-message-author-role"] := by
    rw [hturns]; exact List.mem_cons_self _ _
  obtain ⟨msgs, hmsgs, m, hm, _⟩ := h Fixture.plainTurn hmem (Or.inl rfl) (by decide)
  have hnone : (ChatGPT.extractConversation Fixture.plainPage Fixture.chatLocation [] 5
      "0.4fzyo82mvyr" "t").1.messages = some [] := rfl
  rw [hnone] at hmsgs
  have : msgs = [] := by simpa using hmsgs.symm
  rw [this] at hm
  exact absurd hm (List.not_mem_nil _)

/-- C11, amended: the Claude extractor falls back to the full text: for a message group
without `.font-claude-message` descendant, or whose first such descendant has blank
text, and whose own `textContent` is not blank, it pushes a message with the trimmed
`textContent` of the group, and the returned list has a message with that content.  The
ChatGPT extractor has no fallback: a turn in which no content selector matches, or whose
matched element has blank text, pushes nothing, and when all turns are such the returned
list is empty. -/
theorem fallback_to_full_text (document : Document) (location : Location)
    (storage : Storage) (now : Nat) (random timestamp : String)
    (generateSessionId : Storage → Except String (String × Storage))
    (r : Response) (storage1 : Storage)
    (hClaude : Claude.extractConversation generateSessionId document location storage timestamp
      = .ok (r, storage1)) :
    (∃ msgs : List Message, r.messages = some msgs ∧
      ∀ e ∈ ((Claude.conversationDiv document).map
          (fun div => div.querySelectorAll [.attrContains "data-testid" "message"])).getD [],
        (e.querySelector [.cls "font-claude-message"] = none ∨
          ∃ sub, e.querySelector [.cls "font-claude-message"] = some sub ∧
            trim sub.textContent = "") →
        trim e.textContent ≠ "" →
        (∀ acc, ∃ role, Claude.visit acc e = acc ++ [⟨role, trim e.textContent⟩]) ∧
        ∃ m ∈ msgs, m.content = trim e.textContent) ∧
    (∃ msgs : List Message,
      (ChatGPT.extractConversation document location storage now random timestamp).1.messages
        = some msgs ∧
      msgs = (document.querySelectorAll [.hasAttr "data-message-author-role"]).foldl
        ChatGPT.visit [] ∧
      (∀ e, (e.querySelector ChatGPT.contentSelector = none ∨
          ∃ sub, e.querySelector ChatGPT.contentSelector = some sub ∧
            trim (orString sub.innerText (orString (some sub.textContent) "")) = "") →
        ∀ acc, ChatGPT.visit acc e = acc) ∧
      ((∀ e ∈ document.querySelectorAll [.hasAttr "data-message-author-role"],
          (e.querySelector ChatGPT.contentSelector = none ∨
            ∃ sub, e.querySelector ChatGPT.contentSelector = some sub ∧
              trim (orString sub.innerText (orString (some sub.textContent) "")) = "")) →
        msgs = [])) := by
  constructor
  · have hmsgs : r.messages = some
        ((((Claude.conversationDiv document).map
          (fun div => div.querySelectorAll [.attrContains "data-testid" "message"])).getD
          []).foldl Claude.visit []) := by
      unfold Claude.extractConversation at hClaude
      cases hdiv : Claude.conversationDiv document with
      | none =>
        rw [hdiv] at hClaude
        simp only [Except.ok.injEq, Prod.mk.injEq] at hClaude
        rw [← hClaude.1]; rfl
      | some div =>
        rw [hdiv] at hClaude
        simp only at hClaude
        cases hgen : generateSessionId storage with
        | error e => rw [hgen] at hClaude; cases hClaude
        | ok v =>
          obtain ⟨sessionId, st⟩ := v
          rw [hgen] at hClaude
          simp only [Except.ok.injEq, Prod.mk.injEq] at hClaude
          rw [← hClaude.1]; rfl
    refine ⟨_, hmsgs, ?_⟩
    intro e he hsub hfull
    have hres := claude_resolveContent_fallback e hsub
    constructor
    · intro acc
      refine ⟨if Claude.isUser e then "user" else "assistant", ?_⟩
      have hne : Claude.resolveContent e ≠ "" := by rw [hres]; exact hfull
      simp [Claude.visit, hres, hfull]
    · rw [claude_visit_foldl]
      refine ⟨⟨if Claude.isUser e then "user" else "assistant", Claude.resolveContent e⟩,
        ?_, hres⟩
      apply List.mem_map.mpr
      refine ⟨e, List.mem_filter.mpr ⟨he, ?_⟩, rfl⟩
      rw [hres]
      simpa using hfull
  · refine ⟨_, chatgpt_extract_messages _ _ _ _ _ _, rfl, ?_, ?_⟩
    · intro e hsub acc
      simp [ChatGPT.visit, chatgpt_resolveContent_blank e hsub]
    · intro hall
      rw [chatgpt_visit_foldl]
      have hfilter : (document.querySelectorAll [.hasAttr "data-message-author-role"]).filter
          (fun e => decide (trim (ChatGPT.resolveContent e) ≠ "")) = [] := by
        rw [List.filter_eq_nil_iff]
        intro e he
        simp [chatgpt_resolveContent_blank e (hall e he)]
      rw [hfilter]
      rfl

/-! ## The reachable states of the popup -/

theorem hasMessages_iff (response : Option Response) :
    Popup.hasMessages response = true ↔
      ∃ r ms, response = some r ∧ r.messages = some ms ∧ ms ≠ [] := by
  unfold Popup.hasMessages
  cases response with
  | none => simp
  | some r =>
    cases hms : r.messages with
    | none => simp [hms]
    | some ms => cases ms <;> simp [hms]

theorem copyToClipboard_no_fetch (text : String) (payload : Popup.Payload) :
    Popup.Effect.fetch payload ∉ Popup.copyToClipboard text := by
  unfold Popup.copyToClipboard
  split <;> simp

theorem copy_handlers_no_fetch (s : Popup.State) (payload : Popup.Payload) :
    Popup.Effect.fetch payload ∉ Popup.copySystem s ∧
    Popup.Effect.fetch payload ∉ Popup.copyFull s ∧
    Popup.Effect.fetch payload ∉ Popup.copyJson s ∧
    Popup.Effect.fetch payload ∉ Popup.openInNewChat s := by
  refine ⟨?_, ?_, ?_, ?_⟩
  · unfold Popup.copySystem
    cases s.processedContext with
    | none => simp
    | some pc =>
      simp only
      split
      · exact copyToClipboard_no_fetch _ _
      · simp
  · unfold Popup.copyFull
    cases s.processedContext with
    | none => simp
    | some pc => exact copyToClipboard_no_fetch _ _
  · unfold Popup.copyJson
    cases s.processedContext <;> simp
  · unfold Popup.openInNewChat
    cases s.conversation with
    | none => simp
    | some c =>
      simp only
      split_ifs <;> simp

theorem processContext_safe (s s1 : Popup.State) (effects : List Popup.Effect)
    (h : Popup.processContext s = (s1, effects)) :
    s1.conversation = s.conversation ∧
    (s1.state = "loading" ∨ s1.state = "extracted") ∧
    (∀ payload, Popup.Effect.fetch payload ∈ effects → s.conversation ≠ none) := by
  unfold Popup.processContext at h
  simp only at h
  cases hb : Popup.buildPayload s.conversation with
  | error e =>
    rw [hb] at h
    simp only [Prod.mk.injEq] at h
    obtain ⟨h1, h2⟩ := h
    subst h1 h2
    exact ⟨rfl, Or.inr rfl, by simp⟩
  | ok p =>
    rw [hb] at h
    simp only [Prod.mk.injEq] at h
    obtain ⟨h1, h2⟩ := h
    subst h1 h2
    refine ⟨rfl, Or.inl rfl, ?_⟩
    intro _ _ hnone
    rw [hnone] at hb
    simp [Popup.buildPayload] at hb

theorem render_buttons (s : Popup.State) (view : Popup.View)
    (hrender : Popup.render s = .ok view) :
    view.buttons
      = (if s.state = "idle" then ["extractBtn"] else []) ++
        (if s.state = "extracted" ∧ s.conversation.isSome then ["processBtn"] else []) ++
        (if s.state = "processed" ∧ s.processedContext.isSome then
          ["copySystemBtn", "copyFullBtn", "copyJsonBtn", "chatBtn"] else []) := by
  unfold Popup.render at hrender
  by_cases hst : s.state = "extracted"
  · have hne : ¬ ("extracted" = "idle") := by decide
    have hne2 : ¬ ("extracted" = "processed") := by decide
    cases hc : s.conversation with
    | none =>
      simp [hst, hc, hne, hne2] at hrender
      rw [← hrender]
      simp [hst, hne, hne2]
    | some c =>
      cases hm : c.messages with
      | none => simp [hst, hc, hm] at hrender
      | some ms =>
        cases hsid : c.sessionId with
        | none => simp [hst, hc, hm, hsid] at hrender
        | some sid =>
          simp [hst, hc, hm, hsid, hne, hne2] at hrender
          rw [← hrender]
          simp [hst, hne, hne2]
  · simp only [hst, if_false, false_and] at hrender
    by_cases hp : s.state = "processed"
    · have hi : ¬ ("processed" = "idle") := by decide
      simp only [hp, if_true] at hrender
      cases hpc : s.processedContext with
      | none =>
        rw [hpc] at hrender
        simp at hrender
        rw [← hrender]
        simp [hp, hi]
      | some pc =>
        rw [hpc] at hrender
        cases hc : s.conversation with
        | none => rw [hc] at hrender; simp at hrender
        | some c =>
          rw [hc] at hrender
          simp at hrender
          rw [← hrender]
          simp [hp, hi]
    · simp only [hp, if_false] at hrender
      simp at hrender
      rw [← hrender]
      by_cases hi : s.state = "idle" <;> simp [hi, hp, hst]

/-- Wherever `render` returns, a click does what `dispatch` says. -/
theorem click_eq_dispatch (id : String) (s : Popup.State) (res : Popup.State × List Popup.Effect)
    (h : Popup.click id s = some res) : res = Popup.dispatch id s := by
  unfold Popup.click at h
  cases hr : Popup.render s with
  | error e => rw [hr] at h; cases h
  | ok view =>
    rw [hr] at h
    simp only at h
    have hb := render_buttons s view hr
    have e1 : ¬ ("extractBtn" = "processBtn") := by decide
    by_cases hidle : s.state = "idle"
    · have n1 : ¬ ("idle" = "extracted") := by decide
      have n2 : ¬ ("idle" = "processed") := by decide
      simp only [hidle, n1, n2, if_true, if_false, false_and, List.append_nil] at hb
      rw [hb] at h
      by_cases hid : id = "extractBtn"
      · subst hid
        simp at h
        simp [Popup.dispatch, hidle, ← h]
      · simp [hid] at h
        simp [Popup.dispatch, hid, hidle, n1, n2, ← h]
    · by_cases hext : s.state = "extracted"
      · have n1 : ¬ ("extracted" = "idle") := by decide
        have n2 : ¬ ("extracted" = "processed") := by decide
        simp only [hext, n1, n2, if_true, if_false, false_and, true_and, List.append_nil,
          List.nil_append] at hb
        by_cases hc : s.conversation.isSome = true
        · simp only [hc, if_true] at hb
          rw [hb] at h
          by_cases hid : id = "processBtn"
          · subst hid
            simp at h
            simp [Popup.dispatch, hext, hc, ← h]
          · simp [hid] at h
            simp [Popup.dispatch, hid, hext, n1, n2, ← h]
        · simp only [hc, if_false] at hb
          rw [hb] at h
          simp at h
          simp [Popup.dispatch, hext, hc, n1, n2, ← h]
      · by_cases hproc : s.state = "processed" ∧ s.processedContext.isSome = true
        · simp only [hidle, hext, hproc, if_true, if_false, false_and, List.nil_append,
            and_self] at hb
          rw [hb] at h
          have hp1 : ¬ ("processed" = "idle") := by decide
          have hp2 : ¬ ("processed" = "extracted") := by decide
          by_cases h1 : id = "copySystemBtn"
          · subst h1; simp at h; simp [Popup.dispatch, hproc, ← h]
          · by_cases h2 : id = "copyFullBtn"
            · subst h2; simp at h; simp [Popup.dispatch, hproc, ← h]
            · by_cases h3 : id = "copyJsonBtn"
              · subst h3; simp at h; simp [Popup.dispatch, hproc, ← h]
              · by_cases h4 : id = "chatBtn"
                · subst h4; simp at h; simp [Popup.dispatch, hproc, ← h]
                · simp [h1, h2, h3, h4] at h
                  simp [Popup.dispatch, hproc, h1, h2, h3, h4, hp1, hp2, ← h]
        · simp only [hidle, hext, hproc, if_false, false_and, List.append_nil] at hb
          rw [hb] at h
          simp at h
          simp [Popup.dispatch, hidle, hext, hproc, ← h]

theorem dispatch_safe (id : String) (s : Popup.State) :
    (Popup.dispatch id s).1.conversation = s.conversation ∧
    (((Popup.dispatch id s).1.state = "extracted" ∨
        (Popup.dispatch id s).1.state = "processed") →
      (Popup.dispatch id s).1.state = s.state ∨ s.conversation ≠ none) ∧
    (∀ payload, Popup.Effect.fetch payload ∈ (Popup.dispatch id s).2 →
      s.conversation ≠ none) := by
  have hsame : ∀ effects : List Popup.Effect,
      (∀ payload, Popup.Effect.fetch payload ∉ effects) →
      ((s, effects) : Popup.State × List Popup.Effect).1.conversation = s.conversation ∧
      ((((s, effects) : Popup.State × List Popup.Effect).1.state = "extracted" ∨
          ((s, effects) : Popup.State × List Popup.Effect).1.state = "processed") →
        ((s, effects) : Popup.State × List Popup.Effect).1.state = s.state ∨
          s.conversation ≠ none) ∧
      (∀ payload, Popup.Effect.fetch payload ∈
          ((s, effects) : Popup.State × List Popup.Effect).2 → s.conversation ≠ none) :=
    fun effects hno => ⟨rfl, fun _ => Or.inl rfl, fun payload hp => absurd hp (hno payload)⟩
  unfold Popup.dispatch
  split_ifs with h1 h2 h3 h4 h5 h6 h7 h8 h9
  · refine ⟨rfl, ?_, by simp [Popup.extractConversation]⟩
    intro hst
    rcases hst with hst | hst <;> simp [Popup.extractConversation] at hst
  · exact hsame [] (by simp)
  · have hne : s.conversation ≠ none := by
      intro hn
      rw [hn] at h4
      simp at h4
    obtain ⟨hc, _, hf⟩ := processContext_safe s _ _ rfl
    exact ⟨hc, fun _ => Or.inr hne, hf⟩
  · exact hsame [] (by simp)
  · exact hsame _ (fun payload => (copy_handlers_no_fetch s payload).1)
  · exact hsame _ (fun payload => (copy_handlers_no_fetch s payload).2.1)
  · exact hsame _ (fun payload => (copy_handlers_no_fetch s payload).2.2.1)
  · exact hsame _ (fun payload => (copy_handlers_no_fetch s payload).2.2.2)
  · exact hsame [] (by simp)
  · exact hsame [] (by simp)

theorem tabs_safe (s : Popup.State) (tabs : Except String (List Popup.Tab)) :
    (Popup.extractConversation_tabs s tabs).1.conversation = s.conversation ∧
    ((Popup.extractConversation_tabs s tabs).1.state = s.state ∨
      (Popup.extractConversation_tabs s tabs).1.state = "idle") ∧
    (∀ payload, Popup.Effect.fetch payload ∉ (Popup.extractConversation_tabs s tabs).2) := by
  unfold Popup.extractConversation_tabs
  cases tabs with
  | error e => exact ⟨rfl, Or.inr rfl, by simp⟩
  | ok l =>
    cases l with
    | nil => exact ⟨rfl, Or.inr rfl, by simp⟩
    | cons tab rest =>
      simp only
      cases tab.url with
      | none => exact ⟨rfl, Or.inr rfl, by simp⟩
      | some u => exact ⟨rfl, Or.inl rfl, by simp⟩

theorem callback_safe (s : Popup.State) (lastError : Option String)
    (response : Option Response) :
    ((Popup.extractConversation_callback s lastError response).conversation = s.conversation ∧
      (Popup.extractConversation_callback s lastError response).state = "idle") ∨
    ((Popup.extractConversation_callback s lastError response).conversation = response ∧
      Popup.hasMessages response = true) := by
  unfold Popup.extractConversation_callback
  cases lastError with
  | some m => exact Or.inl ⟨rfl, rfl⟩
  | none =>
    simp only
    cases hm : Popup.hasMessages response with
    | true => exact Or.inr ⟨by simp, rfl⟩
    | false => exact Or.inl ⟨by simp, by simp⟩

theorem settled_safe (s : Popup.State) (outcome : Except String Popup.FetchResponse) :
    (Popup.processContext_settled s outcome).conversation = s.conversation := by
  unfold Popup.processContext_settled
  cases outcome with
  | error e => rfl
  | ok response =>
    simp only
    split
    · cases response.text <;> rfl
    · cases response.json with
      | error e => rfl
      | ok data =>
        simp only
        cases Popup.render { s with processedContext := data, state := "processed" } <;> rfl

theorem step_safe (sys next : Popup.System) (e : Popup.Event)
    (hinv : Popup.Invariant sys) (hstep : Popup.step sys e = some next) :
    Popup.Invariant next := by
  obtain ⟨h1, h2, h3⟩ := hinv
  cases e with
  | click id =>
    unfold Popup.step at hstep
    simp only [Option.some.injEq] at hstep
    subst hstep
    obtain ⟨hconv, hstate, hfetch⟩ := dispatch_safe id sys.vars
    refine ⟨?_, ?_, ?_⟩
    · show (Popup.dispatch id sys.vars).1.conversation = none ∨
        Popup.hasMessages (Popup.dispatch id sys.vars).1.conversation = true
      rw [hconv]; exact h1
    · intro hst
      show (Popup.dispatch id sys.vars).1.conversation ≠ none
      rw [hconv]
      rcases hstate hst with heq | hne
      · exact h2 (by rw [← heq]; exact hst)
      · exact hne
    · intro payload hp
      show (Popup.dispatch id sys.vars).1.conversation ≠ none
      rw [hconv]
      rcases List.mem_append.mp hp with h | h
      · exact h3 payload h
      · exact hfetch payload h
  | tabsSettled tabs =>
    unfold Popup.step at hstep
    simp only at hstep
    split_ifs at hstep with hin
    simp only [Option.some.injEq] at hstep
    subst hstep
    obtain ⟨hconv, hstate, hfetch⟩ := tabs_safe sys.vars tabs
    refine ⟨?_, ?_, ?_⟩
    · show (Popup.extractConversation_tabs sys.vars tabs).1.conversation = none ∨
        Popup.hasMessages (Popup.extractConversation_tabs sys.vars tabs).1.conversation = true
      rw [hconv]; exact h1
    · intro hst
      show (Popup.extractConversation_tabs sys.vars tabs).1.conversation ≠ none
      rw [hconv]
      rcases hstate with heq | hidle
      · exact h2 (by rw [← heq]; exact hst)
      · have hst2 : (Popup.extractConversation_tabs sys.vars tabs).1.state = "extracted" ∨
            (Popup.extractConversation_tabs sys.vars tabs).1.state = "processed" := hst
        rw [hidle] at hst2
        rcases hst2 with h | h <;> simp at h
    · intro payload hp
      show (Popup.extractConversation_tabs sys.vars tabs).1.conversation ≠ none
      rw [hconv]
      rcases List.mem_append.mp hp with h | h
      · exact h3 payload (List.mem_of_mem_erase h)
      · exact absurd h (hfetch payload)
  | answered tabId lastError response =>
    unfold Popup.step at hstep
    simp only at hstep
    split_ifs at hstep with hin
    simp only [Option.some.injEq] at hstep
    subst hstep
    rcases callback_safe sys.vars lastError response with ⟨hconv, hidle⟩ | ⟨hconv, hmsg⟩
    · refine ⟨?_, ?_, ?_⟩
      · show (Popup.extractConversation_callback sys.vars lastError response).conversation
            = none ∨ Popup.hasMessages
              (Popup.extractConversation_callback sys.vars lastError response).conversation
                = true
        rw [hconv]; exact h1
      · intro hst
        have hst2 : (Popup.extractConversation_callback sys.vars lastError response).state
            = "extracted" ∨
            (Popup.extractConversation_callback sys.vars lastError response).state
              = "processed" := hst
        rw [hidle] at hst2
        rcases hst2 with h | h <;> simp at h
      · intro payload hp
        show (Popup.extractConversation_callback sys.vars lastError response).conversation
          ≠ none
        rw [hconv]
        exact h3 payload (List.mem_of_mem_erase hp)
    · have hsome : response ≠ none := by
        intro hn
        rw [hn] at hmsg
        simp [Popup.hasMessages] at hmsg
      refine ⟨?_, ?_, ?_⟩
      · show (Popup.extractConversation_callback sys.vars lastError response).conversation
            = none ∨ Popup.hasMessages
              (Popup.extractConversation_callback sys.vars lastError response).conversation
                = true
        rw [hconv]; exact Or.inr hmsg
      · intro _
        show (Popup.extractConversation_callback sys.vars lastError response).conversation
          ≠ none
        rw [hconv]; exact hsome
      · intro _ _
        show (Popup.extractConversation_callback sys.vars lastError response).conversation
          ≠ none
        rw [hconv]; exact hsome
  | fetchSettled payload outcome =>
    unfold Popup.step at hstep
    simp only at hstep
    split_ifs at hstep with hin
    simp only [Option.some.injEq] at hstep
    subst hstep
    have hconv := settled_safe sys.vars outcome
    have hsome := h3 payload hin
    refine ⟨?_, ?_, ?_⟩
    · show (Popup.processContext_settled sys.vars outcome).conversation = none ∨
        Popup.hasMessages (Popup.processContext_settled sys.vars outcome).conversation = true
      rw [hconv]; exact h1
    · intro _
      show (Popup.processContext_settled sys.vars outcome).conversation ≠ none
      rw [hconv]; exact hsome
    · intro _ _
      show (Popup.processContext_settled sys.vars outcome).conversation ≠ none
      rw [hconv]; exact hsome
  | clipboardRejected effect =>
    unfold Popup.step at hstep
    simp only at hstep
    cases effect with
    | clipboardWrite text =>
      simp only at hstep
      split_ifs at hstep with hin
      simp only [Option.some.injEq] at hstep
      subst hstep
      exact ⟨h1, h2, fun payload hp => h3 payload (List.mem_of_mem_erase hp)⟩
    | clipboardWriteJson data =>
      simp only at hstep
      split_ifs at hstep with hin
      simp only [Option.some.injEq] at hstep
      subst hstep
      exact ⟨h1, h2, fun payload hp => h3 payload (List.mem_of_mem_erase hp)⟩
    | tabsQuery => simp at hstep
    | sendMessage tabId => simp at hstep
    | fetch p => simp at hstep
    | alert text => simp at hstep
    | tabsCreate url => simp at hstep

theorem run_safe (events : List Popup.Event) (sys last : Popup.System)
    (hinv : Popup.Invariant sys) (hrun : Popup.run sys events = some last) :
    Popup.Invariant last := by
  induction events generalizing sys with
  | nil =>
    simp only [Popup.run, Option.some.injEq] at hrun
    rw [← hrun]; exact hinv
  | cons e es ih =>
    unfold Popup.run at hrun
    cases hs : Popup.step sys e with
    | none => rw [hs] at hrun; cases hrun
    | some next =>
      rw [hs] at hrun
      exact ih next (step_safe sys next e hinv hs) hrun

theorem init_invariant : Popup.Invariant Popup.System.init :=
  ⟨Or.inl rfl,
   by
    intro h
    have h2 : "idle" = "extracted" ∨ "idle" = "processed" := h
    rcases h2 with h | h <;> exact absurd h (by decide),
   by intro _ h; simp [Popup.System.init] at h⟩

/-- C12: in every state that the popup reaches from its initial state by clicks on the
buttons that `render` mounts (extract in `idle`, process in `extracted` with a
conversation, copy and chat in `processed` with a processed context) and by completions
of operations in flight, `conversation` is `null` or a response with at least one
message, and it is not `null` in the states `extracted` and `processed`.  Hence whenever
`processContext` runs, that is on a click on the process button in state `extracted`,
the index `messages.length - 1` is within bounds: the payload is built and the request
is sent. -/
theorem popup_reachable_invariant (events : List Popup.Event) (sys : Popup.System)
    (hrun : Popup.run Popup.System.init events = some sys) :
    (sys.vars.conversation = none ∨
      ∃ c ms, sys.vars.conversation = some c ∧ c.messages = some ms ∧ ms ≠ []) ∧
    ((sys.vars.state = "extracted" ∨ sys.vars.state = "processed") →
      sys.vars.conversation ≠ none) ∧
    (sys.vars.state = "extracted" →
      ∃ c ms payload, sys.vars.conversation = some c ∧ c.messages = some ms ∧
        ms.length - 1 < ms.length ∧
        Popup.buildPayload sys.vars.conversation = .ok payload ∧
        Popup.dispatch "processBtn" sys.vars
          = ({ sys.vars with state := "loading", error := none },
              [Popup.Effect.fetch payload])) := by
  obtain ⟨h1, h2, _⟩ := run_safe events Popup.System.init sys init_invariant hrun
  refine ⟨?_, h2, ?_⟩
  · rcases h1 with h | h
    · exact Or.inl h
    · exact Or.inr ((hasMessages_iff _).mp h)
  · intro hst
    have hne := h2 (Or.inl hst)
    have hmsg : Popup.hasMessages sys.vars.conversation = true := by
      rcases h1 with h | h
      · exact absurd h hne
      · exact h
    obtain ⟨c, ms, hc, hms, hnil⟩ := (hasMessages_iff _).mp hmsg
    have hpos : 0 < ms.length := List.length_pos.mpr hnil
    obtain ⟨last, hlast⟩ : ∃ last, ms[ms.length - 1]? = some last := by
      have hlt : ms.length - 1 < ms.length := by omega
      exact ⟨ms[ms.length - 1], List.getElem?_eq_getElem hlt⟩
    have hbuild : Popup.buildPayload sys.vars.conversation
        = .ok { conversation_input :=
                  { session_id := c.sessionId, user_message := last.content,
                    conversation_history := ms },
                target_provider := c.provider, retrieve_context := true,
                apply_policies := true } := by
      simp [Popup.buildPayload, hc, hms, hlast]
    refine ⟨c, ms, _, hc, hms, by omega, hbuild, ?_⟩
    have e1 : ¬ ("processBtn" = "extractBtn") := by decide
    have hbuild2 := hbuild
    rw [hc] at hbuild2
    simp [Popup.dispatch, e1, hst, hc, Popup.processContext, hbuild2]

/-! ## Instances on sample inputs -/

theorem role_is_user_iff_signal_witness :
    Claude.extractConversation Fixture.fixedSessionId Fixture.page Fixture.homeLocation [] "t"
      = .ok (Fixture.claudeAnswer, []) ∧
    ∃ msgs : List Message,
      Fixture.claudeAnswer.messages = some msgs ∧
      List.Forall₂
        (fun m e => (m.role = "user" ∨ m.role = "assistant") ∧
          (m.role = "user" ↔
            (e.querySelector [.attrEq "data-testid" "user-message"]).isSome = true) ∧
          (m.role = "assistant" ↔
            (e.querySelector [.attrEq "data-testid" "user-message"]).isSome = false))
        msgs
        ((((Claude.conversationDiv Fixture.page).map
            (fun div => div.querySelectorAll [.attrContains "data-testid" "message"])).getD
            []).filter
          (fun e => decide (Claude.resolveContent e ≠ ""))) :=
  ⟨rfl, (role_is_user_iff_signal Fixture.page Fixture.homeLocation [] 5 "0.4fzyo82mvyr" "t"
    Fixture.fixedSessionId Fixture.claudeAnswer [] rfl).2.2⟩

theorem processContext_payload_witness :
    ∃ payload : Popup.Payload,
      (Popup.processContext Fixture.extracted).2 = [Popup.Effect.fetch payload] ∧
      payload.conversation_input.user_message = "c" ∧
      payload.conversation_input.conversation_history
        = [⟨"user", "a"⟩, ⟨"assistant", "b"⟩, ⟨"user", "c"⟩] ∧
      payload.conversation_input.conversation_history.length = 3 := by
  obtain ⟨payload, hsent, hlast, hhist, hlen, _, _⟩ :=
    processContext_payload Fixture.extracted Fixture.abc
      [⟨"user", "a"⟩, ⟨"assistant", "b"⟩, ⟨"user", "c"⟩] rfl rfl (by decide)
  refine ⟨payload, hsent, ?_, hhist, hlen⟩
  simpa using hlast

theorem extraction_callback_outcome_witness :
    Popup.extractConversation_callback (Popup.extractConversation {}).1 none (some Fixture.abc)
      = { state := "extracted", conversation := some Fixture.abc, processedContext := none,
          error := none } ∧
    (Popup.extractConversation_callback (Popup.extractConversation {}).1 none
      (some { provider := some "claude", messages := some [],
              error := some "No conversation found" })).state = "idle" :=
  ⟨(extraction_callback_outcome (Popup.extractConversation {}).1 none (some Fixture.abc)
      rfl rfl).1 ⟨rfl, Fixture.abc, _, rfl, rfl, by decide⟩,
   ((extraction_callback_outcome (Popup.extractConversation {}).1 none
      (some { provider := some "claude", messages := some [],
              error := some "No conversation found" }) rfl rfl).2 (by simp)).1⟩

theorem backend_failure_returns_to_extracted_witness :
    (Popup.processContext_settled (Popup.processContext Fixture.extracted).1
      (.ok ⟨500, .ok "server error", .error "Unexpected token"⟩)).state = "extracted" ∧
    ∃ e, (Popup.processContext_settled (Popup.processContext Fixture.extracted).1
        (.ok ⟨500, .ok "server error", .error "Unexpected token"⟩)).error = some e ∧
      includes e "500" = true := by
  obtain ⟨hstate, ⟨e, he, hinc⟩, _, _⟩ :=
    backend_failure_returns_to_extracted Fixture.extracted
      (Popup.processContext Fixture.extracted).1
      { conversation_input :=
          { session_id := some "abc123", user_message := "c",
            conversation_history := [⟨"user", "a"⟩, ⟨"assistant", "b"⟩, ⟨"user", "c"⟩] },
        target_provider := some "chatgpt", retrieve_context := true, apply_policies := true }
      500 "server error" (.error "Unexpected token") rfl (by decide)
  exact ⟨hstate, e, he, hinc⟩

theorem no_extraction_while_loading_witness :
    Popup.click "extractBtn" (Popup.extractConversation {}).1
      = some ((Popup.extractConversation {}).1, []) ∧
    Popup.click "extractBtn" (Popup.processContext Fixture.extracted).1
      = some ((Popup.processContext Fixture.extracted).1, []) :=
  ⟨(no_extraction_while_loading (Popup.extractConversation {}).1 rfl).2,
   (no_extraction_while_loading (Popup.processContext Fixture.extracted).1 rfl).2⟩

theorem chatgpt_url_id_is_authoritative_witness :
    (ChatGPT.extractConversation Fixture.page Fixture.chatLocation Fixture.usedStorage 5
      "0.4fzyo82mvyr" "t").1.sessionId = some "abc123" ∧
    (ChatGPT.extractConversation Fixture.page Fixture.chatLocation Fixture.usedStorage 5
      "0.4fzyo82mvyr" "t").2 = Fixture.usedStorage := by
  obtain ⟨hid, hst, _⟩ :=
    chatgpt_url_id_is_authoritative Fixture.page Fixture.chatLocation Fixture.usedStorage 5
      "0.4fzyo82mvyr" "t" [] "abc123".data "/share".data rfl (by decide) (by decide)
      (Or.inr rfl) (fun _ _ _ _ _ => Nat.zero_le _)
  exact ⟨hid, hst⟩

theorem claude_without_container_witness :
    Claude.extractConversation Fixture.fixedSessionId Fixture.emptyPage Fixture.homeLocation
        Fixture.usedStorage "t"
      = .ok ({ provider := some "claude", messages := some [],
               error := some "No conversation found" }, Fixture.usedStorage) :=
  (claude_without_container Fixture.fixedSessionId Fixture.emptyPage Fixture.homeLocation
    Fixture.usedStorage "t" (by decide)
    (by
      intro t attrs i cs h
      simp [Fixture.emptyPage, subtreeList, Node.descendants] at h
      rcases h with h | h | h <;> (rw [h.1]; decide))).1

theorem fallback_to_full_text_witness :
    Claude.extractConversation Fixture.fixedSessionId Fixture.plainPage Fixture.chatLocation []
        "t"
      = .ok ({ provider := some "claude", sessionId := some "claude-1",
               messages := some [⟨"assistant", "Hello"⟩, ⟨"assistant", "Hi there"⟩],
               timestamp := some "t", url := some "https://chatgpt.com/c/abc123/share" }, []) ∧
    (ChatGPT.extractConversation Fixture.plainPage Fixture.chatLocation [] 5 "0.4fzyo82mvyr"
      "t").1.messages = some [] := by
  have hrun : Claude.extractConversation Fixture.fixedSessionId Fixture.plainPage
      Fixture.chatLocation [] "t"
      = .ok ({ provider := some "claude", sessionId := some "claude-1",
               messages := some [⟨"assistant", "Hello"⟩, ⟨"assistant", "Hi there"⟩],
               timestamp := some "t", url := some "https://chatgpt.com/c/abc123/share" }, []) := rfl
  obtain ⟨_, msgs, hmsgs, _, _, hall⟩ :=
    fallback_to_full_text Fixture.plainPage Fixture.chatLocation [] 5 "0.4fzyo82mvyr" "t"
      Fixture.fixedSessionId _ _ hrun
  refine ⟨hrun, ?_⟩
  rw [hmsgs, hall ?_]
  intro e he
  have hturns : Fixture.plainPage.querySelectorAll [.hasAttr "data-message-author-role"]
      = [Fixture.plainTurn, Fixture.blankContentTurn] := rfl
  rw [hturns] at he
  rcases List.mem_cons.mp he with h | h
  · rw [h]; exact Or.inl rfl
  · rw [List.mem_singleton.mp h]
    exact Or.inr ⟨_, rfl, by decide⟩

theorem popup_reachable_invariant_witness :
    Popup.run Popup.System.init (Fixture.session.take 3)
      = some { vars := Fixture.extracted, inflight := [] } ∧
    Fixture.extracted.conversation ≠ none ∧
    ∃ final, Popup.run Popup.System.init Fixture.session = some final ∧
      final.vars.state = "processed" ∧ final.vars.conversation ≠ none :=
  ⟨rfl,
   (popup_reachable_invariant (Fixture.session.take 3)
      { vars := Fixture.extracted, inflight := [] } rfl).2.1 (Or.inl rfl),
   { vars := { state := "processed", conversation := some Fixture.abc,
               processedContext := some {} },
     inflight := [] },
   rfl, rfl,
   (popup_reachable_invariant Fixture.session
      { vars := { state := "processed", conversation := some Fixture.abc,
                  processedContext := some {} },
        inflight := [] } rfl).2.1 (Or.inr rfl)⟩

end Continuum
